import Mathlib

set_option maxHeartbeats 1000000

/-!
Verification of the `public_mcp` multi-agent system (weather, finance and
orchestrator agents).  The Python sources under `src/public_mcp` are embedded
shallowly: handler functions become Lean functions, the mutable finance cache
becomes explicit state passing, the remote providers and the random module
become explicit oracle/draw parameters, and raising code returns
`Except String`.  Numbers (Python ints and floats) are modelled together as
exact rationals.
-/

namespace MCPA

/-! String operations of the source (`upper`, `lower`, `in`, `replace`,
`startswith`, `title`, `split`) are embedded as structural functions over the
character list of the string, with ASCII case mapping — sufficient for every
string this system manipulates. -/

/-- Python `s.upper()`. -/
def pyUpper (s : String) : String := String.mk (s.data.map Char.toUpper)

/-- Python `s.lower()`. -/
def pyLower (s : String) : String := String.mk (s.data.map Char.toLower)

/-- Whether `pre` is a prefix of `l`. -/
def isPrefixList : List Char → List Char → Bool
  | [], _ => true
  | _ :: _, [] => false
  | a :: as, b :: bs => a == b && isPrefixList as bs

/-- Whether `sub` occurs inside `l` (Python `in` on strings). -/
def containsList (sub : List Char) : List Char → Bool
  | [] => sub.isEmpty
  | c :: rest => isPrefixList sub (c :: rest) || containsList sub rest

/-- Python `sub in s`. -/
def pyInStr (sub s : String) : Bool := containsList sub.data s.data

/-- Python `s.startswith(pre)`. -/
def pyStartsWith (s pre : String) : Bool := isPrefixList pre.data s.data

/-- Fuel-based worker for `str.replace` (each step consumes at least one
character, so `fuel = length` suffices). -/
def replaceListAux (pat rep : List Char) : ℕ → List Char → List Char
  | 0, l => l
  | _, [] => []
  | fuel + 1, c :: rest =>
    if isPrefixList pat (c :: rest) then
      rep ++ replaceListAux pat rep fuel (rest.drop (pat.length - 1))
    else
      c :: replaceListAux pat rep fuel rest

/-- Python `s.replace(pat, rep)` for a nonempty pattern (every pattern used in
the source is nonempty). -/
def pyReplace (s pat rep : String) : String :=
  if pat.data.isEmpty then s
  else String.mk (replaceListAux pat.data rep.data s.data.length s.data)

/-- Split on the space character, keeping empty words (the behaviour of
Python `split(" ")`). -/
def wordsSplitAux : List Char → List Char → List (List Char)
  | [], acc => [acc.reverse]
  | c :: rest, acc =>
    if c = ' ' then acc.reverse :: wordsSplitAux rest []
    else wordsSplitAux rest (c :: acc)

/-- Join words back with single spaces. -/
def joinSpace : List (List Char) → List Char
  | [] => []
  | [w] => w
  | w :: ws => w ++ ' ' :: joinSpace ws

/-- Capitalize one word as Python `title` does: first character uppercased,
the rest lowercased. -/
def capitalizeWord : List Char → List Char
  | [] => []
  | c :: cs => Char.toUpper c :: cs.map Char.toLower

/-- A Python value as it occurs in the payloads and handler results of this
system: a number (int or float, modelled as an exact rational), a string, a
bool, `None`, a list, or an insertion-ordered dict with string keys. -/
inductive Val : Type where
  | num (q : ℚ)
  | str (s : String)
  | bool (b : Bool)
  | none
  | list (elems : List Val)
  | dict (entries : List (String × Val))

/-- Python dict assignment `d[k] = v`: overwrites the first binding of `k` in
place (insertion order preserved), otherwise appends. -/
def pySet {α : Type} (d : List (String × α)) (k : String) (v : α) :
    List (String × α) :=
  match d with
  | [] => [(k, v)]
  | (k0, v0) :: rest => if k0 = k then (k, v) :: rest else (k0, v0) :: pySet rest k v

/-- Python dict lookup returning the first binding of `k`, if any. -/
def pyLookup {α : Type} (d : List (String × α)) (k : String) : Option α :=
  match d with
  | [] => Option.none
  | (k0, v0) :: rest => if k0 = k then some v0 else pyLookup rest k

/-- The keys of a dict, in insertion order. -/
def dictKeys (d : List (String × Val)) : List String := d.map Prod.fst

/-- Rounding to the nearest integer with ties to even, the idealization of
Python `round` on the exact rational value. -/
def pyRoundInt (x : ℚ) : ℤ :=
  let f := ⌊x⌋
  let frac := x - (f : ℚ)
  if frac < 1/2 then f
  else if 1/2 < frac then f + 1
  else if f % 2 = 0 then f else f + 1

/-- Python `round(x, n)`. -/
def pyRound (x : ℚ) (n : ℕ) : ℚ :=
  ((pyRoundInt (x * (10 : ℚ) ^ n) : ℚ)) / (10 : ℚ) ^ n

/-- Python `int(x)`: truncation toward zero. -/
def pyInt (x : ℚ) : ℤ :=
  if 0 ≤ x then ⌊x⌋ else ⌈x⌉

/-! ## Finance agent (src/public_mcp/finance/agent.py) -/

/-- One slot of the finance cache, as written by `_cache_data`:
`self.cache[key] = { "data": data, "timestamp": datetime.now().timestamp() }`. -/
structure CacheEntry : Type where
  data : Val
  timestamp : ℚ

/-- The mutable state of the `FinanceAgent` after `_custom_initialize`:
`self.cache` (a dict), `self.cache_timeout = 300`, and whether `self.session`
was created. -/
structure FinState : Type where
  cache : List (String × CacheEntry)
  cacheTimeout : ℚ
  hasSession : Bool

/-- Embeds `FinanceAgent._is_cache_valid`.  `now` is `datetime.now().timestamp()`. -/
def isCacheValid (st : FinState) (now : ℚ) (key : String) : Bool :=
  match pyLookup st.cache key with
  | Option.none => false
  | some e => decide (now - e.timestamp < st.cacheTimeout)

/-- Embeds `FinanceAgent._cache_data`. -/
def cacheData (st : FinState) (now : ℚ) (key : String) (data : Val) : FinState :=
  { st with cache := pySet st.cache key ⟨data, now⟩ }

/-- Outcome of one call to the exchange-rate provider
(`session.get(exchange_rate_api/base)`): a 200 response whose parsed body has
the `rates` mapping and `time_last_updated`, a non-200 status, or a raised
exception (network error, or a body without the expected fields, which makes
the subscript raise inside the same `try`). -/
inductive ExchangeOutcome : Type where
  | ok (rates : List (String × ℚ)) (timeLastUpdated : ℚ)
  | httpError (status : ℕ)
  | raised (msg : String)

/-- The random draws consumed by `_get_simulated_exchange_rate`: the
`random.uniform(0.5, 10.0)` draw used when the pair is not in the table, and
the `random.uniform(-0.05, 0.05)` variation. -/
structure ExchangeRand : Type where
  unknownRate : ℚ
  variation : ℚ

/-- The hard-coded simulated base-rate table of `_get_simulated_exchange_rate`. -/
def simulatedRates : List (String × ℚ) :=
  [("USD_BRL", 52/10), ("EUR_BRL", 58/10), ("GBP_BRL", 65/10),
   ("USD_EUR", 9/10), ("USD_GBP", 8/10)]

/-- Embeds `FinanceAgent._get_simulated_exchange_rate`. -/
def getSimulatedExchangeRate (base target : String) (r : ExchangeRand) (now : ℚ) :
    Val :=
  let key := base ++ "_" ++ target
  let reverseKey := target ++ "_" ++ base
  let baseRate :=
    match pyLookup simulatedRates key with
    | some q => q
    | Option.none =>
      match pyLookup simulatedRates reverseKey with
      | some q => 1 / q
      | Option.none => r.unknownRate
  let finalRate := baseRate * (1 + r.variation)
  Val.dict
    [("par", Val.str (base ++ "/" ++ target)),
     ("taxa", Val.num (pyRound finalRate 4)),
     ("base", Val.str (pyUpper base)),
     ("target", Val.str (pyUpper target)),
     ("timestamp", Val.num ((pyInt now : ℤ) : ℚ)),
     ("fonte", Val.str "Dados Simulados")]

/-- The result dict built by `_get_exchange_rate` in its success branch
(status 200 and `target.upper()` present in the body rates). -/
def realExchangeResult (base target : String) (rate tlu : ℚ) : Val :=
  Val.dict
    [("par", Val.str (base ++ "/" ++ target)),
     ("taxa", Val.num rate),
     ("base", Val.str (pyUpper base)),
     ("target", Val.str (pyUpper target)),
     ("timestamp", Val.num tlu),
     ("fonte", Val.str "ExchangeRate-API")]

/-- Embeds `FinanceAgent._get_exchange_rate`: returns the result value, the updated
agent state, and the number of provider calls issued (0 or 1).  When
`self.session` is `None` the body of the `try` is skipped and the function
implicitly returns `None`. -/
def getExchangeRate (st : FinState) (now : ℚ) (base target : String)
    (provider : ExchangeOutcome) (r : ExchangeRand) : Val × FinState × ℕ :=
  let cacheKey := "exchange_" ++ base ++ "_" ++ target
  if isCacheValid st now cacheKey then
    (((pyLookup st.cache cacheKey).map CacheEntry.data).getD Val.none, st, 0)
  else if st.hasSession then
    match provider with
    | ExchangeOutcome.ok rates tlu =>
      match pyLookup rates (pyUpper target) with
      | some rate =>
        let result := realExchangeResult base target rate tlu
        (result, cacheData st now cacheKey result, 1)
      | Option.none => (getSimulatedExchangeRate base target r now, st, 1)
    | ExchangeOutcome.httpError _ => (getSimulatedExchangeRate base target r now, st, 1)
    | ExchangeOutcome.raised _ => (getSimulatedExchangeRate base target r now, st, 1)
  else
    (Val.none, st, 0)

/-- The body entry for one coin in a successful `simple/price` response:
`price` is the mandatory `crypto_data[currency]` field (its absence is a
`KeyError`, folded into the raised outcome), the 24h change and volume are
read with `.get` defaults. -/
structure CryptoEntry : Type where
  price : ℚ
  change24h : Option ℚ
  vol24h : Option ℚ

/-- Outcome of one call to the CoinGecko `simple/price` endpoint: a 200
response (with the entry for the requested id present or absent from the
body), a non-200 status, or a raised exception. -/
inductive CryptoOutcome : Type where
  | ok (entry : Option CryptoEntry)
  | httpError (status : ℕ)
  | raised (msg : String)

/-- The random draws consumed by `_get_simulated_crypto_price`: the
`random.uniform(1, 1000)` price used for unknown coins, the
`random.uniform(-10, 10)` variation, and the `random.randint` volume. -/
structure CryptoRand : Type where
  unknownPrice : ℚ
  variation : ℚ
  volume : ℚ

/-- The hard-coded simulated base-price table (in BRL) of
`_get_simulated_crypto_price`. -/
def simulatedBasePrices : List (String × ℚ) :=
  [("bitcoin", 200000), ("ethereum", 12000), ("cardano", 5/2),
   ("solana", 150), ("dogecoin", 2/5)]

/-- Embeds `FinanceAgent._get_simulated_crypto_price`. -/
def getSimulatedCryptoPrice (crypto currency : String) (r : CryptoRand) (now : ℚ) :
    Val :=
  let basePrice := (pyLookup simulatedBasePrices (pyLower crypto)).getD r.unknownPrice
  Val.dict
    [("crypto", Val.str (pyUpper crypto)),
     ("moeda", Val.str (pyUpper currency)),
     ("preco", Val.num (pyRound (basePrice * (1 + r.variation / 100)) 2)),
     ("variacao_24h", Val.num (pyRound r.variation 2)),
     ("volume_24h", Val.num r.volume),
     ("timestamp", Val.num ((pyInt now : ℤ) : ℚ)),
     ("fonte", Val.str "Dados Simulados")]

/-- The result dict built by `_get_crypto_price` in its success branch. -/
def realCryptoResult (crypto currency : String) (e : CryptoEntry) (now : ℚ) : Val :=
  Val.dict
    [("crypto", Val.str (pyUpper crypto)),
     ("moeda", Val.str (pyUpper currency)),
     ("preco", Val.num e.price),
     ("variacao_24h", Val.num (e.change24h.getD 0)),
     ("volume_24h", Val.num (e.vol24h.getD 0)),
     ("timestamp", Val.num ((pyInt now : ℤ) : ℚ)),
     ("fonte", Val.str "CoinGecko")]

/-- Embeds `FinanceAgent._get_crypto_price`: result value, updated state, number of
provider calls issued (0 or 1).  As in `_get_exchange_rate`, a `None` session
skips the `try` body and the function implicitly returns `None`. -/
def getCryptoPrice (st : FinState) (now : ℚ) (crypto currency : String)
    (provider : CryptoOutcome) (r : CryptoRand) : Val × FinState × ℕ :=
  let cacheKey := "crypto_" ++ crypto ++ "_" ++ currency
  if isCacheValid st now cacheKey then
    (((pyLookup st.cache cacheKey).map CacheEntry.data).getD Val.none, st, 0)
  else if st.hasSession then
    match provider with
    | CryptoOutcome.ok (some e) =>
      let result := realCryptoResult crypto currency e now
      (result, cacheData st now cacheKey result, 1)
    | CryptoOutcome.ok Option.none => (getSimulatedCryptoPrice crypto currency r now, st, 1)
    | CryptoOutcome.httpError _ => (getSimulatedCryptoPrice crypto currency r now, st, 1)
    | CryptoOutcome.raised _ => (getSimulatedCryptoPrice crypto currency r now, st, 1)
  else
    (Val.none, st, 0)

/-- One coin as returned by the CoinGecko `coins/markets` endpoint, with the
fields read by `_get_top_cryptos`. -/
structure MarketCoin : Type where
  marketCapRank : ℚ
  name : String
  symbol : String
  currentPrice : ℚ
  marketCap : ℚ
  priceChangePct24h : ℚ
  totalVolume : ℚ

/-- Outcome of one call to the CoinGecko `coins/markets` endpoint. -/
inductive TopCryptosOutcome : Type where
  | ok (coins : List MarketCoin)
  | httpError (status : ℕ)
  | raised (msg : String)

/-- The per-coin random draws consumed by `_get_simulated_top_cryptos`. -/
structure TopCryptosRand : Type where
  price : ℕ → ℚ
  marketCap : ℕ → ℚ
  variation : ℕ → ℚ
  volume : ℕ → ℚ

/-- The hard-coded coin-name list of `_get_simulated_top_cryptos`. -/
def cryptosPopulares : List String :=
  ["Bitcoin", "Ethereum", "Cardano", "Solana", "Dogecoin",
   "Polkadot", "Chainlink", "Litecoin", "XRP", "Polygon"]

/-- Embeds `FinanceAgent._get_simulated_top_cryptos`. -/
def getSimulatedTopCryptos (limit : ℕ) (currency : String) (r : TopCryptosRand)
    (now : ℚ) : Val :=
  let coins := ((cryptosPopulares.take limit).enum).map (fun p =>
    Val.dict
      [("rank", Val.num ((p.1 : ℚ) + 1)),
       ("nome", Val.str p.2),
       ("simbolo", Val.str (pyUpper (p.2.take 3))),
       ("preco", Val.num (pyRound (r.price p.1) 2)),
       ("market_cap", Val.num (r.marketCap p.1)),
       ("variacao_24h", Val.num (pyRound (r.variation p.1) 2)),
       ("volume_24h", Val.num (r.volume p.1))])
  Val.dict
    [("top_cryptos", Val.list coins),
     ("moeda", Val.str (pyUpper currency)),
     ("limite", Val.num (limit : ℚ)),
     ("timestamp", Val.num ((pyInt now : ℤ) : ℚ)),
     ("fonte", Val.str "Dados Simulados")]

/-- The coin dict built by `_get_top_cryptos` for one element of a successful
provider body. -/
def formatMarketCoin (c : MarketCoin) : Val :=
  Val.dict
    [("rank", Val.num c.marketCapRank),
     ("nome", Val.str c.name),
     ("simbolo", Val.str (pyUpper c.symbol)),
     ("preco", Val.num c.currentPrice),
     ("market_cap", Val.num c.marketCap),
     ("variacao_24h", Val.num c.priceChangePct24h),
     ("volume_24h", Val.num c.totalVolume)]

/-- The result dict built by `_get_top_cryptos` in its success branch. -/
def realTopCryptosResult (limit : ℕ) (currency : String) (coins : List MarketCoin)
    (now : ℚ) : Val :=
  Val.dict
    [("top_cryptos", Val.list (coins.map formatMarketCoin)),
     ("moeda", Val.str (pyUpper currency)),
     ("limite", Val.num (limit : ℚ)),
     ("timestamp", Val.num ((pyInt now : ℤ) : ℚ)),
     ("fonte", Val.str "CoinGecko")]

/-- Embeds `FinanceAgent._get_top_cryptos`: result value, updated state, number of
provider calls issued (0 or 1). -/
def getTopCryptos (st : FinState) (now : ℚ) (limit : ℕ) (currency : String)
    (provider : TopCryptosOutcome) (r : TopCryptosRand) : Val × FinState × ℕ :=
  let cacheKey := "top_cryptos_" ++ toString limit ++ "_" ++ currency
  if isCacheValid st now cacheKey then
    (((pyLookup st.cache cacheKey).map CacheEntry.data).getD Val.none, st, 0)
  else if st.hasSession then
    match provider with
    | TopCryptosOutcome.ok coins =>
      let result := realTopCryptosResult limit currency coins now
      (result, cacheData st now cacheKey result, 1)
    | TopCryptosOutcome.httpError _ => (getSimulatedTopCryptos limit currency r now, st, 1)
    | TopCryptosOutcome.raised _ => (getSimulatedTopCryptos limit currency r now, st, 1)
  else
    (Val.none, st, 0)

/-- Embeds `FinanceAgent._get_multiple_exchange_rates`: one `_get_exchange_rate` call
per target, threading the cache; each target slot would degrade to an
`erro` marker on a raised exception, but the embedded sub-operation is total,
so the per-target `except` branch is never taken. -/
def getMultipleExchangeRates (st : FinState) (now : ℚ) (base : String)
    (targets : List String) (o : String → ExchangeOutcome)
    (r : String → ExchangeRand) : Val × FinState :=
  let step := targets.foldl
    (fun (acc : List (String × Val) × FinState) target =>
      let call := getExchangeRate acc.2 now base target (o target) (r target)
      (pySet acc.1 target call.1, call.2.1))
    ([], st)
  (Val.dict
    [("base", Val.str (pyUpper base)),
     ("cotacoes", Val.dict step.1),
     ("total_consultadas", Val.num (targets.length : ℚ)),
     ("timestamp", Val.num ((pyInt now : ℤ) : ℚ))],
   step.2)

/-- Python dict subscript `v[k]`: `KeyError` when the key is absent and
`TypeError` when the value is not subscriptable (such as the `None` returned
by the session-less paths). -/
def pyGetItem (v : Val) (k : String) : Except String Val :=
  match v with
  | Val.dict d =>
    match pyLookup d k with
    | some x => Except.ok x
    | Option.none => Except.error ("KeyError: " ++ k)
  | _ => Except.error "TypeError: value is not subscriptable"

/-- The random draws consumed by `_get_simulated_market_summary`. -/
structure SummaryRand : Type where
  usdBrl : ℚ
  eurBrl : ℚ
  btcPreco : ℚ
  btcVar : ℚ
  ethPreco : ℚ
  ethVar : ℚ

/-- Embeds `FinanceAgent._get_simulated_market_summary`.  `nowIso` models
`datetime.now().isoformat()`. -/
def getSimulatedMarketSummary (r : SummaryRand) (now : ℚ) (nowIso : String) : Val :=
  Val.dict
    [("moedas", Val.dict
       [("USD/BRL", Val.num (pyRound r.usdBrl 4)),
        ("EUR/BRL", Val.num (pyRound r.eurBrl 4))]),
     ("cryptos", Val.dict
       [("Bitcoin", Val.dict
          [("preco", Val.num (pyRound r.btcPreco 2)),
           ("variacao_24h", Val.num (pyRound r.btcVar 2))]),
        ("Ethereum", Val.dict
          [("preco", Val.num (pyRound r.ethPreco 2)),
           ("variacao_24h", Val.num (pyRound r.ethVar 2))])]),
     ("timestamp", Val.num ((pyInt now : ℤ) : ℚ)),
     ("resumo_gerado_em", Val.str nowIso),
     ("fonte", Val.str "Dados Simulados")]

/-- The provider outcomes and random draws consumed by the four sub-calls of
`_get_market_summary`, plus the draws of its own simulated fallback. -/
structure MarketSummaryEnv : Type where
  usdOutcome : ExchangeOutcome
  usdRand : ExchangeRand
  eurOutcome : ExchangeOutcome
  eurRand : ExchangeRand
  btcOutcome : CryptoOutcome
  btcRand : CryptoRand
  ethOutcome : CryptoOutcome
  ethRand : CryptoRand
  summaryRand : SummaryRand

/-- Embeds `FinanceAgent._get_market_summary`: runs the four quote sub-calls
sequentially (threading the cache), then builds the merged summary; if any
subscript in the merge raises (for instance on a `None` sub-result), the
`except` branch returns the fully simulated summary.  Cache writes made by
the sub-calls persist either way. -/
def getMarketSummary (st : FinState) (now : ℚ) (nowIso : String)
    (env : MarketSummaryEnv) : Val × FinState :=
  let usdCall := getExchangeRate st now "USD" "BRL" env.usdOutcome env.usdRand
  let eurCall := getExchangeRate usdCall.2.1 now "EUR" "BRL" env.eurOutcome env.eurRand
  let btcCall := getCryptoPrice eurCall.2.1 now "bitcoin" "brl" env.btcOutcome env.btcRand
  let ethCall := getCryptoPrice btcCall.2.1 now "ethereum" "brl" env.ethOutcome env.ethRand
  let merged : Except String Val := do
    let usdTaxa ← pyGetItem usdCall.1 "taxa"
    let eurTaxa ← pyGetItem eurCall.1 "taxa"
    let btcPreco ← pyGetItem btcCall.1 "preco"
    let btcVar ← pyGetItem btcCall.1 "variacao_24h"
    let ethPreco ← pyGetItem ethCall.1 "preco"
    let ethVar ← pyGetItem ethCall.1 "variacao_24h"
    pure (Val.dict
      [("moedas", Val.dict [("USD/BRL", usdTaxa), ("EUR/BRL", eurTaxa)]),
       ("cryptos", Val.dict
         [("Bitcoin", Val.dict [("preco", btcPreco), ("variacao_24h", btcVar)]),
          ("Ethereum", Val.dict [("preco", ethPreco), ("variacao_24h", ethVar)])]),
       ("timestamp", Val.num ((pyInt now : ℤ) : ℚ)),
       ("resumo_gerado_em", Val.str nowIso)])
  match merged with
  | Except.ok v => (v, ethCall.2.1)
  | Except.error _ => (getSimulatedMarketSummary env.summaryRand now nowIso, ethCall.2.1)

/-! ## Weather agent (src/public_mcp/weather/agent.py) -/

/-- The state of the `WeatherAgent`: `self.api_key` and `self.session`.
Unlike the finance agent, the weather agent defines no cache. -/
structure WeatherState : Type where
  apiKey : Option String
  hasSession : Bool

/-- Python truthiness of an optional string (`if self.api_key`): `None` and
the empty string are falsy. -/
def pyTruthyStr : Option String → Bool
  | Option.none => false
  | some s => decide (s ≠ "")

/-- Python substring containment `sub in s`, expressed via `str.split`. -/
def pyContains (s sub : String) : Bool := pyInStr sub s

/-- The parsed body of a successful OpenWeatherMap `/weather` response, with
the fields read by `_format_current_weather`; `wind.deg` and `visibility` are
read with `.get` defaults.  A body missing a mandatory field makes
`_format_current_weather` raise inside the same `try` and is folded into the
raised outcome. -/
structure OWMBody : Type where
  name : String
  sysCountry : String
  mainTemp : ℚ
  mainFeelsLike : ℚ
  mainHumidity : ℚ
  mainPressure : ℚ
  weather0Description : String
  windSpeed : ℚ
  windDeg : Option ℚ
  visibility : Option ℚ
  dt : ℚ

/-- Outcome of one call to the OpenWeatherMap `/weather` endpoint. -/
inductive WeatherOutcome : Type where
  | ok (body : OWMBody)
  | httpError (status : ℕ)
  | raised (msg : String)

/-- Embeds `WeatherAgent._format_current_weather`. -/
def formatCurrentWeather (data : OWMBody) : Val :=
  Val.dict
    [("cidade", Val.str data.name),
     ("pais", Val.str data.sysCountry),
     ("temperatura", Val.num (pyRound data.mainTemp 1)),
     ("sensacao_termica", Val.num (pyRound data.mainFeelsLike 1)),
     ("humidade", Val.num data.mainHumidity),
     ("pressao", Val.num data.mainPressure),
     ("descricao", Val.str data.weather0Description),
     ("vento_velocidade", Val.num data.windSpeed),
     ("vento_direcao", Val.num (data.windDeg.getD 0)),
     ("visibilidade", Val.num ((data.visibility.getD 0) / 1000)),
     ("fonte", Val.str "OpenWeatherMap"),
     ("timestamp", Val.num data.dt)]

/-- The random draws consumed by `_get_simulated_weather`. -/
structure WeatherRand : Type where
  tempVariation : ℚ
  condIdx : Fin 5
  feelsDelta : ℚ
  humidade : ℚ
  pressao : ℚ
  ventoVelocidade : ℚ
  ventoDirecao : ℚ
  visibilidade : ℚ

/-- The condition list of `_get_simulated_weather`. -/
def condicoes : List String :=
  ["ensolarado", "parcialmente nublado", "nublado", "chuvoso", "tempestade"]

/-- Embeds `WeatherAgent._get_simulated_weather`. -/
def getSimulatedWeather (cidade : String) (r : WeatherRand) (now : ℚ) : Val :=
  let baseTemp : ℚ := if pyContains cidade "São Paulo" then 20 else 25
  Val.dict
    [("cidade", Val.str cidade),
     ("pais", Val.str "BR"),
     ("temperatura", Val.num (pyRound (baseTemp + r.tempVariation) 1)),
     ("sensacao_termica", Val.num (pyRound (baseTemp + r.tempVariation + r.feelsDelta) 1)),
     ("humidade", Val.num r.humidade),
     ("pressao", Val.num r.pressao),
     ("descricao", Val.str (condicoes.get r.condIdx)),
     ("vento_velocidade", Val.num (pyRound r.ventoVelocidade 1)),
     ("vento_direcao", Val.num r.ventoDirecao),
     ("visibilidade", Val.num (pyRound r.visibilidade 1)),
     ("fonte", Val.str "Dados Simulados"),
     ("timestamp", Val.num ((pyInt now : ℤ) : ℚ))]

/-- Embeds `WeatherAgent._get_current_weather`: result value and number of provider
calls issued (0 or 1).  There is no cache lookup in this handler: whenever
an API key and a session are present, the provider is called. -/
def getCurrentWeather (st : WeatherState) (cidade : String)
    (provider : WeatherOutcome) (r : WeatherRand) (now : ℚ) : Val × ℕ :=
  if pyTruthyStr st.apiKey && st.hasSession then
    match provider with
    | WeatherOutcome.ok body => (formatCurrentWeather body, 1)
    | WeatherOutcome.httpError _ => (getSimulatedWeather cidade r now, 1)
    | WeatherOutcome.raised _ => (getSimulatedWeather cidade r now, 1)
  else
    (getSimulatedWeather cidade r now, 0)

/-- One item of the `list` field of an OpenWeatherMap `/forecast` body, with
the fields read by `_format_forecast`; `pop` is read with a `.get` default. -/
structure ForecastItem : Type where
  dtTxt : String
  tempMin : ℚ
  tempMax : ℚ
  description : String
  humidity : ℚ
  pop : Option ℚ

/-- The parsed body of a successful `/forecast` response. -/
structure ForecastBody : Type where
  items : List ForecastItem
  cityName : String
  cityCountry : String

/-- Outcome of one call to the `/forecast` endpoint. -/
inductive ForecastOutcome : Type where
  | ok (body : ForecastBody)
  | httpError (status : ℕ)
  | raised (msg : String)

/-- Python list slicing `l[:n:8]`: the elements at indices 0, 8, 16, ...
below `n` (and below the length). -/
def sliceStep8 {α : Type} (l : List α) (n : ℕ) : List α :=
  (((l.take n).enum).filter (fun p => p.1 % 8 = 0)).map Prod.snd

/-- The forecast-point dict built by `_format_forecast` for one body item. -/
def formatForecastItem (item : ForecastItem) : Val :=
  Val.dict
    [("data", Val.str item.dtTxt),
     ("temperatura_min", Val.num (pyRound item.tempMin 1)),
     ("temperatura_max", Val.num (pyRound item.tempMax 1)),
     ("descricao", Val.str item.description),
     ("humidade", Val.num item.humidity),
     ("probabilidade_chuva", Val.num ((item.pop.getD 0) * 100))]

/-- Embeds `WeatherAgent._format_forecast`. -/
def formatForecast (data : ForecastBody) (dias : ℕ) : Val :=
  Val.dict
    [("cidade", Val.str data.cityName),
     ("pais", Val.str data.cityCountry),
     ("previsoes", Val.list ((sliceStep8 data.items (dias * 8)).map formatForecastItem)),
     ("fonte", Val.str "OpenWeatherMap")]

/-- The per-day random draws consumed by `_get_simulated_forecast`. -/
structure ForecastDayRand : Type where
  tempVar : ℚ
  condIdx : Fin 3
  humidade : ℚ
  chuva : ℚ

/-- The condition list of `_get_simulated_forecast`. -/
def simForecastCondicoes : List String := ["ensolarado", "nublado", "chuvoso"]

/-- Embeds `WeatherAgent._get_simulated_forecast`.  `dateStr i` models
`(datetime.now() + timedelta(days=i)).strftime`. -/
def getSimulatedForecast (cidade : String) (dias : ℕ)
    (r : ℕ → ForecastDayRand) (dateStr : ℕ → String) : Val :=
  let baseTemp : ℚ := if pyContains cidade "São Paulo" then 20 else 25
  Val.dict
    [("cidade", Val.str cidade),
     ("pais", Val.str "BR"),
     ("previsoes", Val.list ((List.range dias).map (fun i =>
        Val.dict
          [("data", Val.str (dateStr i)),
           ("temperatura_min", Val.num (pyRound (baseTemp + (r i).tempVar - 3) 1)),
           ("temperatura_max", Val.num (pyRound (baseTemp + (r i).tempVar + 5) 1)),
           ("descricao", Val.str (simForecastCondicoes.get (r i).condIdx)),
           ("humidade", Val.num (r i).humidade),
           ("probabilidade_chuva", Val.num (r i).chuva)]))),
     ("fonte", Val.str "Dados Simulados")]

/-- Embeds `WeatherAgent._get_forecast`: result value and number of provider calls
issued (0 or 1).  Same structure as `_get_current_weather`. -/
def getForecast (st : WeatherState) (cidade : String) (dias : ℕ)
    (provider : ForecastOutcome) (r : ℕ → ForecastDayRand)
    (dateStr : ℕ → String) : Val × ℕ :=
  if pyTruthyStr st.apiKey && st.hasSession then
    match provider with
    | ForecastOutcome.ok body => (formatForecast body dias, 1)
    | ForecastOutcome.httpError _ => (getSimulatedForecast cidade dias r dateStr, 1)
    | ForecastOutcome.raised _ => (getSimulatedForecast cidade dias r dateStr, 1)
  else
    (getSimulatedForecast cidade dias r dateStr, 0)

/-- The nondeterministic environment of one weather-handler invocation: the
provider outcome and random draws consumed by each sub-operation, indexed by
the city they are called with, plus the clock. -/
structure WeatherEnv : Type where
  current : String → WeatherOutcome
  currentRand : String → WeatherRand
  forecast : String → ForecastOutcome
  forecastRand : String → ℕ → ForecastDayRand
  forecastDate : String → ℕ → String
  now : ℚ

/-- The names bound at module level in `src/public_mcp/weather/agent.py`
(imports and top-level definitions). -/
def weatherModuleGlobals : List String :=
  ["asyncio", "aiohttp", "json", "Dict", "Any", "Optional",
   "BaseMCPAgent", "AgentConfig", "MCPMessage", "WeatherAgent", "main"]

/-- The local names bound in `_get_multiple_cities_weather` at the point
where its return dict is evaluated: the parameters, the accumulator and the
loop/exception variables.  The name `message` is not among them. -/
def multipleCitiesLocals : List String :=
  ["self", "cidades", "resultados", "cidade", "clima", "e"]

/-- Evaluating a bare Python name: `NameError` when it is bound neither
locally nor at module level (`message` is also not a builtin). -/
def pyName (localNames globalNames : List String) (n : String) :
    Except String Unit :=
  if n ∈ localNames ∨ n ∈ globalNames then Except.ok ()
  else Except.error ("NameError: name " ++ n ++ " is not defined")

/-- Embeds `WeatherAgent._get_multiple_cities_weather`: builds the per-city
`resultados` dict (the per-city `except` branch is never taken because the
embedded `_get_current_weather` is total), then evaluates the return dict
literal.  Its `timestamp` entry evaluates the bare name `message`, which is
unbound in this method, so the construction raises `NameError`; the `pure`
below it is unreachable. -/
def getMultipleCitiesWeather (st : WeatherState) (env : WeatherEnv)
    (cidades : List String) : Except String Val := do
  let resultados := cidades.foldl
    (fun acc cidade =>
      pySet acc cidade
        (getCurrentWeather st cidade (env.current cidade) (env.currentRand cidade) env.now).1)
    []
  let _ ← pyName multipleCitiesLocals weatherModuleGlobals "message"
  pure (Val.dict
    [("cidades", Val.dict resultados),
     ("total_consultadas", Val.num (cidades.length : ℚ)),
     ("timestamp", Val.none)])

/-! ## Message envelope and the agent boundary -/

/-- A message as produced by `create_message`: the type string and the
payload dict (the timestamp field of the envelope plays no role in any
embedded handler). -/
structure MCPMessage : Type where
  messageType : String
  payload : List (String × Val)

/-- Modelled from the spec: the Response envelope of `BaseMCPAgent`
(`src/mcp_agent/base_agent.py` is not part of this repository).  Exactly one
of `data`/`error` is populated depending on `success`. -/
structure Response : Type where
  success : Bool
  data : Option Val
  error : Option String

/-- Modelled from the spec: the `process` boundary of `BaseMCPAgent`.  Per
§4.1 of the spec it dispatches to the registered handler, converts any raised
handler exception into `Response(success=false, error=description)`, and
wraps a normal handler return value into a successful Response carrying it as
data; no handler exception ever propagates past this boundary. -/
def processBoundary (handler : Except String Val) : Response :=
  match handler with
  | Except.ok v => { success := true, data := some v, error := Option.none }
  | Except.error e => { success := false, data := Option.none, error := some e }

/-- Embeds `payload.get(k, default)` for fields that are strings in every message of
this system (a payload carrying a non-string value in such a field is outside
the modelled input space). -/
def payloadGetStr (msg : MCPMessage) (k : String) (dflt : String) : String :=
  match pyLookup msg.payload k with
  | some (Val.str s) => s
  | _ => dflt

/-- Embeds `payload.get(k, default)` for integer fields. -/
def payloadGetNat (msg : MCPMessage) (k : String) (dflt : ℕ) : ℕ :=
  match pyLookup msg.payload k with
  | some (Val.num q) => (pyInt q).toNat
  | _ => dflt

/-- Embeds `payload.get(k, default)` for fields that are lists of strings in every
message of this system. -/
def payloadGetStrList (msg : MCPMessage) (k : String) (dflt : List String) :
    List String :=
  match pyLookup msg.payload k with
  | some (Val.list l) =>
    l.filterMap (fun v => match v with | Val.str s => some s | _ => Option.none)
  | _ => dflt

/-- Embeds `WeatherAgent._process_custom_message`: case-insensitive dispatch on the
message type; an unrecognized type raises
`ValueError(f"Tipo de mensagem não suportado: ...")`. -/
def weatherProcessCustom (st : WeatherState) (env : WeatherEnv)
    (msg : MCPMessage) : Except String Val :=
  let t := pyLower msg.messageType
  if t = "clima_atual" then
    let cidade := payloadGetStr msg "cidade" "São Paulo"
    Except.ok (getCurrentWeather st cidade (env.current cidade) (env.currentRand cidade) env.now).1
  else if t = "previsao" then
    let cidade := payloadGetStr msg "cidade" "São Paulo"
    let dias := payloadGetNat msg "dias" 5
    Except.ok (getForecast st cidade dias (env.forecast cidade) (env.forecastRand cidade) (env.forecastDate cidade)).1
  else if t = "clima_multiplas_cidades" then
    let cidades := payloadGetStrList msg "cidades" ["São Paulo", "Rio de Janeiro"]
    getMultipleCitiesWeather st env cidades
  else if t = "ping" then
    Except.ok (Val.dict
      [("response", Val.str "pong"), ("agent", Val.str "weather"),
       ("status", Val.str "online")])
  else
    Except.error ("Tipo de mensagem não suportado: " ++ t)

/-- Embeds `process_message` of the weather agent: the spec-modelled boundary around
the custom handler. -/
def weatherProcess (st : WeatherState) (env : WeatherEnv) (msg : MCPMessage) :
    Response :=
  processBoundary (weatherProcessCustom st env msg)

/-! ## Finance agent dispatch -/

/-- The nondeterministic environment of one finance-handler invocation:
provider outcomes and random draws for each sub-operation, indexed by its
arguments, plus the clock. -/
structure FinEnv : Type where
  exchangeOutcome : String → String → ExchangeOutcome
  exchangeRand : String → String → ExchangeRand
  cryptoOutcome : String → String → CryptoOutcome
  cryptoRand : String → String → CryptoRand
  topOutcome : ℕ → String → TopCryptosOutcome
  topRand : TopCryptosRand
  summaryRand : SummaryRand
  now : ℚ
  nowIso : String

/-- The `MarketSummaryEnv` induced by a `FinEnv` for the fixed sub-calls of
`_get_market_summary`. -/
def msEnvOf (env : FinEnv) : MarketSummaryEnv :=
  { usdOutcome := env.exchangeOutcome "USD" "BRL"
    usdRand := env.exchangeRand "USD" "BRL"
    eurOutcome := env.exchangeOutcome "EUR" "BRL"
    eurRand := env.exchangeRand "EUR" "BRL"
    btcOutcome := env.cryptoOutcome "bitcoin" "brl"
    btcRand := env.cryptoRand "bitcoin" "brl"
    ethOutcome := env.cryptoOutcome "ethereum" "brl"
    ethRand := env.cryptoRand "ethereum" "brl"
    summaryRand := env.summaryRand }

/-- Embeds `FinanceAgent._process_custom_message`, returning the handler outcome and
the updated cache state. -/
def financeProcessCustom (st : FinState) (env : FinEnv) (msg : MCPMessage) :
    Except String Val × FinState :=
  let t := pyLower msg.messageType
  if t = "cotacao_moeda" then
    let base := payloadGetStr msg "base" "USD"
    let target := payloadGetStr msg "target" "BRL"
    let call := getExchangeRate st env.now base target
      (env.exchangeOutcome base target) (env.exchangeRand base target)
    (Except.ok call.1, call.2.1)
  else if t = "cotacao_crypto" then
    let crypto := payloadGetStr msg "crypto" "bitcoin"
    let currency := payloadGetStr msg "currency" "brl"
    let call := getCryptoPrice st env.now crypto currency
      (env.cryptoOutcome crypto currency) (env.cryptoRand crypto currency)
    (Except.ok call.1, call.2.1)
  else if t = "multiplas_moedas" then
    let base := payloadGetStr msg "base" "USD"
    let targets := payloadGetStrList msg "targets" ["BRL", "EUR", "GBP"]
    let call := getMultipleExchangeRates st env.now base targets
      (env.exchangeOutcome base) (env.exchangeRand base)
    (Except.ok call.1, call.2)
  else if t = "top_cryptos" then
    let limit := payloadGetNat msg "limit" 10
    let currency := payloadGetStr msg "currency" "brl"
    let call := getTopCryptos st env.now limit currency
      (env.topOutcome limit currency) env.topRand
    (Except.ok call.1, call.2.1)
  else if t = "resumo_mercado" then
    let call := getMarketSummary st env.now env.nowIso (msEnvOf env)
    (Except.ok call.1, call.2)
  else if t = "ping" then
    (Except.ok (Val.dict
      [("response", Val.str "pong"), ("agent", Val.str "finance"),
       ("status", Val.str "online")]), st)
  else
    (Except.error ("Tipo de mensagem não suportado: " ++ t), st)

/-- Embeds `process_message` of the finance agent: the spec-modelled boundary around
the custom handler, threading the cache state. -/
def financeProcess (st : FinState) (env : FinEnv) (msg : MCPMessage) :
    Response × FinState :=
  let call := financeProcessCustom st env msg
  (processBoundary call.1, call.2)

/-! ## Orchestrator agent (src/public_mcp/orchestrator/agent.py) -/

/-- Python truthiness of a value. -/
def pyTruthy : Val → Bool
  | Val.num q => decide (q ≠ 0)
  | Val.str s => decide (s ≠ "")
  | Val.bool b => b
  | Val.none => false
  | Val.list l => !l.isEmpty
  | Val.dict d => !d.isEmpty

/-- Python `v.get(k)`: `None` default; `AttributeError` when the receiver is
not a dict. -/
def pyGet (v : Val) (k : String) : Except String Val :=
  match v with
  | Val.dict d => Except.ok ((pyLookup d k).getD Val.none)
  | _ => Except.error "AttributeError: object has no attribute get"

/-- Python `v.get(k, default)`. -/
def pyGetD (v : Val) (k : String) (dflt : Val) : Except String Val :=
  match v with
  | Val.dict d => Except.ok ((pyLookup d k).getD dflt)
  | _ => Except.error "AttributeError: object has no attribute get"

/-- Numeric comparison `c < v`; `TypeError` when `v` is not a number. -/
def pyGtNum (v : Val) (c : ℚ) : Except String Bool :=
  match v with
  | Val.num q => Except.ok (decide (c < q))
  | _ => Except.error "TypeError: unsupported comparison"

/-- Numeric comparison `v < c`; `TypeError` when `v` is not a number. -/
def pyLtNum (v : Val) (c : ℚ) : Except String Bool :=
  match v with
  | Val.num q => Except.ok (decide (q < c))
  | _ => Except.error "TypeError: unsupported comparison"

/-- Embeds `abs(a - b)` for two values that must be numbers. -/
def pyAbsSub (a b : Val) : Except String ℚ :=
  match a, b with
  | Val.num x, Val.num y => Except.ok |x - y|
  | _, _ => Except.error "TypeError: unsupported operand"

/-- Embeds `str(v)` as interpolated into the generated insight and alert strings.
Python float format specifiers (.2f, +.1f) are abstracted by printing the
exact rational. -/
def pyStr : Val → String
  | Val.num q => toString q
  | Val.str s => s
  | Val.bool b => if b then "True" else "False"
  | Val.none => "None"
  | Val.list _ => "[...]"
  | Val.dict _ => "[dict]"

/-- The `"chuv" in s.lower()` test. -/
def containsChuv (s : String) : Bool := pyContains (pyLower s) "chuv"

/-- The embedded sub-agent interface owned by the orchestrator: the
`process_message` functions of its weather and finance sub-agents (their
cache state and provider nondeterminism having been fixed for the duration of
one orchestrator message), the sub-agent lifecycle status strings read by
`_check_agents_status`, and the orchestrator clock. -/
structure OrchEnv : Type where
  weather : MCPMessage → Response
  finance : MCPMessage → Response
  weatherStatus : String
  financeStatus : String
  nowIso : String
  relatorioTs : String

/-- Embeds `create_message` as issued by the orchestrator. -/
def mkMsg (t : String) (p : List (String × Val)) : MCPMessage := ⟨t, p⟩

/-- The f-string interpolation of a `Response.error` field (`None` prints as
`"None"`). -/
def strOfOptErr : Option String → String
  | some s => s
  | Option.none => "None"

/-- A `Response.error` field embedded as a payload value. -/
def strOrNoneVal : Option String → Val
  | some s => Val.str s
  | Option.none => Val.none

/-- The `sum(1 for p in previsoes if p.get("probabilidade_chuva", 0) > 70)`
comprehension of `_generate_insights`. -/
def countChuvaDias : List Val → Except String ℕ
  | [] => Except.ok 0
  | p :: rest => do
    let pc ← pyGetD p "probabilidade_chuva" (Val.num 0)
    let gt ← pyGtNum pc 70
    let n ← countChuvaDias rest
    pure (if gt then n + 1 else n)

/-- Embeds `OrchestratorAgent._generate_insights`. -/
def genInsights (weatherData financeData : Val) (forecastData : Option Val) :
    Except String (List String) := do
  let temp ← pyGet weatherData "temperatura"
  let part1 ←
    if pyTruthy temp then do
      let gt30 ← pyGtNum temp 30
      if gt30 then
        pure ["🌡️ Temperatura elevada (" ++ pyStr temp ++ "°C) - ideal para atividades aquáticas"]
      else do
        let lt15 ← pyLtNum temp 15
        if lt15 then
          pure ["🧥 Temperatura baixa (" ++ pyStr temp ++ "°C) - recomenda-se roupas quentes"]
        else pure []
    else pure []
  let desc ← pyGet weatherData "descricao"
  let part2 ←
    if pyTruthy desc then
      match desc with
      | Val.str s =>
        pure (if containsChuv s then ["☔ Condições chuvosas - leve guarda-chuva"] else [])
      | _ => Except.error "AttributeError: object has no attribute lower"
    else pure []
  let moedas ← pyGetD financeData "moedas" (Val.dict [])
  let usdRate ← pyGet moedas "USD/BRL"
  let part3 ←
    if pyTruthy usdRate then do
      let hi ← pyGtNum usdRate (11/2)
      if hi then
        pure ["💰 Dólar alto (R$ " ++ pyStr usdRate ++ ") - momento desfavorável para importações"]
      else do
        let lo ← pyLtNum usdRate 5
        if lo then
          pure ["💰 Dólar baixo (R$ " ++ pyStr usdRate ++ ") - bom momento para compras internacionais"]
        else pure []
    else pure []
  let part4 ←
    match forecastData with
    | some fd =>
      if pyTruthy fd then do
        let previsoes ← pyGet fd "previsoes"
        if pyTruthy previsoes then
          match previsoes with
          | Val.list ps => do
            let chuvaDias ← countChuvaDias ps
            if 2 ≤ chuvaDias then
              pure ["🌧️ " ++ toString chuvaDias ++ " dias com alta probabilidade de chuva nos próximos dias"]
            else pure []
          | _ => Except.error "TypeError: not iterable"
        else pure []
      else pure []
    | Option.none => pure []
  pure (part1 ++ part2 ++ part3 ++ part4)

/-- Embeds `OrchestratorAgent._generate_executive_summary`. -/
def genExecutiveSummary (weatherData financeData : Val)
    (insights : List String) : Except String String := do
  let cidade ← pyGetD weatherData "cidade" (Val.str "Cidade")
  let temp ← pyGetD weatherData "temperatura" (Val.str "N/A")
  let condicao ← pyGetD weatherData "descricao" (Val.str "N/A")
  let moedas ← pyGetD financeData "moedas" (Val.dict [])
  let usdBrl ← pyGetD moedas "USD/BRL" (Val.str "N/A")
  let s1 := "Relatório para " ++ pyStr cidade ++ ": Temperatura atual de " ++
    pyStr temp ++ "°C com " ++ pyStr condicao ++ ". "
  let s2 := s1 ++ "Cotação USD/BRL em " ++ pyStr usdBrl ++ ". "
  pure (if insights.isEmpty then s2
        else s2 ++ "Principais insights: " ++ String.intercalate " | " (insights.take 2))

/-- Embeds `OrchestratorAgent._generate_complete_report`, instrumented with the
trace of sub-agent messages it issues, in order, as `(agent name, message)`
pairs.  On a failed weather-current response it returns the `erro` dict
before any finance message is created. -/
def generateCompleteReport (env : OrchEnv) (cidade : String) :
    Except String Val × List (String × MCPMessage) :=
  let wMsg := mkMsg "clima_atual" [("cidade", Val.str cidade)]
  let wResp := env.weather wMsg
  if wResp.success = false then
    (Except.ok (Val.dict
       [("erro", Val.str ("Falha ao obter dados climáticos: " ++ strOfOptErr wResp.error))]),
     [("weather", wMsg)])
  else
    let fMsg := mkMsg "previsao" [("cidade", Val.str cidade), ("dias", Val.num 3)]
    let fResp := env.weather fMsg
    let finMsg := mkMsg "resumo_mercado" []
    let finResp := env.finance finMsg
    let trace := [("weather", wMsg), ("weather", fMsg), ("finance", finMsg)]
    if finResp.success = false then
      (Except.ok (Val.dict
         [("erro", Val.str ("Falha ao obter dados financeiros: " ++ strOfOptErr finResp.error))]),
       trace)
    else
      let weatherData := wResp.data.getD Val.none
      let financeData := finResp.data.getD Val.none
      let forecastData : Option Val :=
        if fResp.success then some (fResp.data.getD Val.none) else Option.none
      ((do
        let insights ← genInsights weatherData financeData forecastData
        let previsao ← match forecastData with
          | some fd => pyGetD fd "previsoes" (Val.list [])
          | Option.none => Except.ok (Val.list [])
        let resumo ← genExecutiveSummary weatherData financeData insights
        pure (Val.dict
          [("relatorio_id", Val.str ("REL_" ++ env.relatorioTs)),
           ("cidade", Val.str cidade),
           ("timestamp", Val.str env.nowIso),
           ("clima", Val.dict [("atual", weatherData), ("previsao", previsao)]),
           ("financeiro", financeData),
           ("insights", Val.list (insights.map Val.str)),
           ("resumo_executivo", Val.str resumo),
           ("agentes_consultados", Val.list [Val.str "weather", Val.str "finance"]),
           ("tempo_processamento", Val.str "processado_em_tempo_real")])),
       trace)

/-- Embeds `OrchestratorAgent._analyze_weather_finance_correlation` (the `all_data`
argument is received but unused in the body, as in the source). -/
def analyzeCorrelation (weatherData : Val) (allData : List (String × Val)) :
    Except String Val := do
  let _ := allData
  let temp ← pyGet weatherData "temperatura"
  let base := [("tipo", Val.str "analise_basica")]
  let withEnergia ←
    if pyTruthy temp then do
      let hot ← pyGtNum temp 35
      pure (if hot then
        pySet base "energia" (Val.str "Temperatura alta pode aumentar demanda por energia elétrica")
        else base)
    else pure base
  let desc ← pyGetD weatherData "descricao" (Val.str "")
  let withAgro ←
    match desc with
    | Val.str s =>
      pure (if containsChuv s then
        pySet withEnergia "agro" (Val.str "Chuva pode impactar positivamente commodities agrícolas")
        else withEnergia)
    | _ => Except.error "AttributeError: object has no attribute lower"
  pure (Val.dict withAgro)

/-- The per-slot merge of `_get_weather_and_finance` and
`_generate_dashboard`: a successful response contributes its data, a failed
one the `erro` marker. -/
def slotOf (r : Response) : Val :=
  if r.success then r.data.getD Val.none
  else Val.dict [("erro", strOrNoneVal r.error)]

/-- Embeds `OrchestratorAgent._get_weather_and_finance`, instrumented with the trace
of sub-agent messages issued.  The three sub-queries always all run; the
per-task `except` branch is never taken because the embedded
`process_message` functions are total. -/
def getWeatherAndFinance (env : OrchEnv) (cidade : String) :
    Except String Val × List (String × MCPMessage) :=
  let wMsg := mkMsg "clima_atual" [("cidade", Val.str cidade)]
  let uMsg := mkMsg "cotacao_moeda" [("base", Val.str "USD"), ("target", Val.str "BRL")]
  let bMsg := mkMsg "cotacao_crypto" [("crypto", Val.str "bitcoin"), ("currency", Val.str "brl")]
  let results : List (String × Val) :=
    [("weather", slotOf (env.weather wMsg)),
     ("usd_brl", slotOf (env.finance uMsg)),
     ("bitcoin", slotOf (env.finance bMsg))]
  let weatherVal := (pyLookup results "weather").getD (Val.dict [])
  ((do
    let correlacao ← analyzeCorrelation weatherVal results
    pure (Val.dict
      [("cidade", Val.str cidade),
       ("clima", weatherVal),
       ("cotacoes", Val.dict
         [("usd_brl", (pyLookup results "usd_brl").getD (Val.dict [])),
          ("bitcoin", (pyLookup results "bitcoin").getD (Val.dict []))]),
       ("correlacao", correlacao),
       ("timestamp", Val.str env.nowIso)])),
   [("weather", wMsg), ("finance", uMsg), ("finance", bMsg)])

/-- Python `max(d, key=d.get)` over a dict of rationals: the first key with
the maximal value (ties keep the earlier key), `None` on an empty dict. -/
def pyMaxByVal : List (String × ℚ) → Option (String × ℚ)
  | [] => Option.none
  | (k, v) :: rest =>
    match pyMaxByVal rest with
    | Option.none => some (k, v)
    | some (k2, v2) => if v < v2 then some (k2, v2) else some (k, v)

/-- Python `min(d, key=d.get)`: the first key with the minimal value. -/
def pyMinByVal : List (String × ℚ) → Option (String × ℚ)
  | [] => Option.none
  | (k, v) :: rest =>
    match pyMinByVal rest with
    | Option.none => some (k, v)
    | some (k2, v2) => if v2 < v then some (k2, v2) else some (k, v)

/-- The per-city temperature read by `_compare_cities`:
`dados.get("clima", {}).get("temperatura")`, kept only when truthy.  Numeric
truthiness is being nonzero; in this system `temperatura` entries are numbers
whenever present, and `dados`/`clima` are dicts. -/
def cityTemp (dados : Val) : Option ℚ :=
  let clima := match dados with
    | Val.dict d => (pyLookup d "clima").getD (Val.dict [])
    | _ => Val.dict []
  match clima with
  | Val.dict c =>
    match pyLookup c "temperatura" with
    | some (Val.num q) => if q = 0 then Option.none else some q
    | _ => Option.none
  | _ => Option.none

/-- The `temperaturas` dict built by the collection loop of
`_compare_cities`, in city insertion order. -/
def collectTemps (resultados : List (String × Val)) : List (String × ℚ) :=
  resultados.filterMap (fun p => (cityTemp p.2).map (fun q => (p.1, q)))

/-- Embeds `OrchestratorAgent._compare_cities`. -/
def compareCities (resultados : List (String × Val)) : Val :=
  if resultados.length < 2 then
    Val.dict [("erro", Val.str "Necessário pelo menos 2 cidades para comparação")]
  else
    let temperaturas := collectTemps resultados
    match pyMaxByVal temperaturas, pyMinByVal temperaturas with
    | some maisQuente, some maisFria =>
      Val.dict [("temperatura", Val.dict
        [("mais_quente", Val.dict
           [("cidade", Val.str maisQuente.1), ("temperatura", Val.num maisQuente.2)]),
         ("mais_fria", Val.dict
           [("cidade", Val.str maisFria.1), ("temperatura", Val.num maisFria.2)])])]
    | _, _ => Val.dict [("info", Val.str "Dados insuficientes para comparação")]

/-- Embeds `OrchestratorAgent._get_multiple_cities_complete`: one
`_get_weather_and_finance` per city in sequence, then the comparison. -/
def getMultipleCitiesComplete (env : OrchEnv) (cidades : List String) :
    Except String Val := do
  let resultados ← cidades.foldlM
    (fun (acc : List (String × Val)) cidade => do
      let r ← (getWeatherAndFinance env cidade).1
      pure (pySet acc cidade r))
    []
  let comparacao := compareCities resultados
  pure (Val.dict
    [("cidades", Val.dict resultados),
     ("total_processadas", Val.num (cidades.length : ℚ)),
     ("comparacao", comparacao),
     ("timestamp", Val.str env.nowIso),
     ("processamento", Val.str "sequencial")])

/-- Embeds `OrchestratorAgent._generate_travel_recommendations`. -/
def genTravelRecommendations (origem destino : Val) :
    Except String (List String) := do
  let climaO ← pyGetD origem "clima" (Val.dict [])
  let tempO ← pyGetD climaO "temperatura" (Val.num 0)
  let climaD ← pyGetD destino "clima" (Val.dict [])
  let tempD ← pyGetD climaD "temperatura" (Val.num 0)
  let diff ← pyAbsSub tempO tempD
  let r1 := if (10 : ℚ) < diff then
      ["Grande diferença de temperatura (" ++ pyStr tempO ++ "°C → " ++ pyStr tempD ++
       "°C) - prepare roupas adequadas"]
    else []
  let descD ← pyGetD climaD "descricao" (Val.str "")
  let r2 ←
    match descD with
    | Val.str s =>
      pure (if containsChuv s then ["Destino com previsão de chuva - leve guarda-chuva"] else [])
    | _ => Except.error "AttributeError: object has no attribute lower"
  pure (r1 ++ r2)

/-- Embeds `p.get("probabilidade_chuva", default)` used as a number in the
best-day sum; a present non-numeric value would make the addition raise. -/
def chuvaDefault (p : Val) (d : ℚ) : Except String ℚ :=
  match p with
  | Val.dict e =>
    match pyLookup e "probabilidade_chuva" with
    | some (Val.num q) => Except.ok q
    | some _ => Except.error "TypeError: unsupported operand"
    | Option.none => Except.ok d
  | _ => Except.error "AttributeError: object has no attribute get"

/-- The running state of the best-day loop of `_suggest_best_travel_day`. -/
structure BestDay : Type where
  melhorDia : Option Val
  menorChuva : ℚ

/-- One iteration of the best-day loop: the summed rain probability of day
`i` replaces the current best only when strictly below `menor_chuva`. -/
def bestDayStep (acc : BestDay) (i : ℕ) (orig dest : Val) :
    Except String BestDay := do
  let co ← chuvaDefault orig 50
  let cd ← chuvaDefault dest 50
  let total := co + cd
  if total < acc.menorChuva then do
    let dataV ← pyGetD orig "data" (Val.str "N/A")
    let po ← pyGetD orig "probabilidade_chuva" (Val.num 0)
    let pd ← pyGetD dest "probabilidade_chuva" (Val.num 0)
    pure ⟨some (Val.dict
      [("dia", Val.num ((i : ℚ) + 1)),
       ("data", dataV),
       ("probabilidade_chuva_origem", po),
       ("probabilidade_chuva_destino", pd)]), total⟩
  else pure acc

/-- The best-day loop over the enumerated zip of the two forecast lists. -/
def bestDayFold : List (ℕ × Val × Val) → BestDay → Except String BestDay
  | [], acc => Except.ok acc
  | (i, o, d) :: rest, acc => do
    let acc2 ← bestDayStep acc i o d
    bestDayFold rest acc2

/-- Embeds `OrchestratorAgent._suggest_best_travel_day`. -/
def suggestBestTravelDay (prevOrigem prevDestino : Val) : Except String Val := do
  if !pyTruthy prevOrigem || !pyTruthy prevDestino then
    pure (Val.dict [("erro", Val.str "Dados de previsão insuficientes")])
  else do
    let po ← pyGetD prevOrigem "previsoes" (Val.list [])
    let pd ← pyGetD prevDestino "previsoes" (Val.list [])
    if !pyTruthy po || !pyTruthy pd then
      pure (Val.dict [("info", Val.str "Previsões não disponíveis")])
    else
      match po, pd with
      | Val.list lo, Val.list ld => do
        let final ← bestDayFold ((lo.zip ld).enum) ⟨Option.none, 100⟩
        match final.melhorDia with
        | some v => pure v
        | Option.none =>
          pure (Val.dict [("info", Val.str "Não foi possível determinar melhor dia")])
      | _, _ => Except.error "TypeError: zip argument is not iterable"

/-- Embeds `OrchestratorAgent._travel_analysis`. -/
def travelAnalysis (env : OrchEnv) (origem destino : String) :
    Except String Val := do
  let dadosOrigem ← (getWeatherAndFinance env origem).1
  let dadosDestino ← (getWeatherAndFinance env destino).1
  let prevOrigem := env.weather
    (mkMsg "previsao" [("cidade", Val.str origem), ("dias", Val.num 5)])
  let prevDestino := env.weather
    (mkMsg "previsao" [("cidade", Val.str destino), ("dias", Val.num 5)])
  let recomendacoes ← genTravelRecommendations dadosOrigem dadosDestino
  let melhorDia ← suggestBestTravelDay (prevOrigem.data.getD Val.none)
    (prevDestino.data.getD Val.none)
  pure (Val.dict
    [("origem", Val.dict
       [("cidade", Val.str origem),
        ("dados_atuais", dadosOrigem),
        ("previsao", if prevOrigem.success then prevOrigem.data.getD Val.none else Val.dict [])]),
     ("destino", Val.dict
       [("cidade", Val.str destino),
        ("dados_atuais", dadosDestino),
        ("previsao", if prevDestino.success then prevDestino.data.getD Val.none else Val.dict [])]),
     ("recomendacoes", Val.list (recomendacoes.map Val.str)),
     ("melhor_dia_viagem", melhorDia),
     ("timestamp", Val.str env.nowIso)])

/-- The fixed city list of `_generate_dashboard`. -/
def cidadesPrincipais : List String := ["São Paulo", "Rio de Janeiro", "Brasília"]

/-- The dashboard-data key `"weather_" + cidade.replace(" ", "_").lower()`. -/
def weatherKey (cidade : String) : String :=
  "weather_" ++ pyLower (pyReplace cidade " " "_")

/-- Python `str.title()` restricted to space-separated words with ASCII case
mapping, sufficient for the city keys arising here. -/
def pyTitle (s : String) : String :=
  String.mk (joinSpace ((wordsSplitAux s.data []).map capitalizeWord))

/-- The temperature-alert loop of `_generate_alerts`: dict-valued
`weather_*` entries with a truthy temperature above 40 contribute an alert. -/
def tempAlertsFor : List (String × Val) → Except String (List String)
  | [] => Except.ok []
  | (key, value) :: rest => do
    let here ←
      if pyStartsWith key "weather_" then
        match value with
        | Val.dict d => do
          let temp := (pyLookup d "temperatura").getD Val.none
          if pyTruthy temp then do
            let hot ← pyGtNum temp 40
            if hot then
              let cidade := pyTitle (pyReplace (pyReplace key "weather_" "") "_" " ")
              pure ["🔥 ALERTA: Temperatura extrema em " ++ cidade ++ " (" ++ pyStr temp ++ "°C)"]
            else pure []
          else pure []
        | _ => pure []
      else pure []
    let tail ← tempAlertsFor rest
    pure (here ++ tail)

/-- The crypto-volatility loop of `_generate_alerts`. -/
def cryptoAlertsFor : List Val → Except String (List String)
  | [] => Except.ok []
  | c :: rest => do
    let v ← pyGetD c "variacao_24h" (Val.num 0)
    let big ←
      match v with
      | Val.num q => Except.ok (decide (10 < |q|))
      | _ => Except.error "TypeError: bad operand for abs"
    let here ←
      if big then do
        let nome ← pyGetItem c "nome"
        let varV ← pyGetItem c "variacao_24h"
        pure ["📈 ALERTA: " ++ pyStr nome ++ " com alta volatilidade (" ++ pyStr varV ++ "%)"]
      else pure []
    let tail ← cryptoAlertsFor rest
    pure (here ++ tail)

/-- Embeds `OrchestratorAgent._generate_alerts`. -/
def genAlerts (dashboardData : List (String × Val)) :
    Except String (List String) := do
  let tempAlerts ← tempAlertsFor dashboardData
  let top := (pyLookup dashboardData "top_cryptos").getD (Val.dict [])
  let cryptosVal ←
    match top with
    | Val.dict d => Except.ok ((pyLookup d "top_cryptos").getD (Val.list []))
    | _ => Except.error "AttributeError: object has no attribute get"
  let cryptoAlerts ←
    match cryptosVal with
    | Val.list l => cryptoAlertsFor l
    | _ => Except.error "TypeError: not iterable"
  pure (tempAlerts ++ cryptoAlerts)

/-- One sub-agent entry of `_check_agents_status`.  The per-agent `except`
branch is never taken because the embedded `process_message` is total. -/
def agentStatusEntry (resp : Response) (statusVal id name version : String) : Val :=
  Val.dict
    [("online", Val.bool resp.success),
     ("status", Val.str statusVal),
     ("response", if resp.success then resp.data.getD Val.none else strOrNoneVal resp.error),
     ("config", Val.dict
       [("id", Val.str id), ("name", Val.str name), ("version", Val.str version)])]

/-- Embeds `OrchestratorAgent._check_agents_status`: pings the sub-agents in their
insertion order (weather, then finance) with the configs of the source. -/
def checkAgentsStatus (env : OrchEnv) : Val :=
  Val.dict
    [("weather", agentStatusEntry (env.weather (mkMsg "ping" []))
       env.weatherStatus "weather_sub_001" "Weather Sub-Agent" "1.0.0"),
     ("finance", agentStatusEntry (env.finance (mkMsg "ping" []))
       env.financeStatus "finance_sub_001" "Finance Sub-Agent" "1.0.0")]

/-- Embeds `OrchestratorAgent._generate_dashboard`. -/
def generateDashboard (env : OrchEnv) : Except String Val := do
  let dashboardData : List (String × Val) :=
    (cidadesPrincipais.map (fun cidade =>
      (weatherKey cidade,
       slotOf (env.weather (mkMsg "clima_atual" [("cidade", Val.str cidade)])))))
    ++ [("market_summary", slotOf (env.finance (mkMsg "resumo_mercado" []))),
        ("top_cryptos", slotOf (env.finance
          (mkMsg "top_cryptos" [("limit", Val.num 5), ("currency", Val.str "brl")])))]
  let alertas ← genAlerts dashboardData
  pure (Val.dict
    [("titulo", Val.str "Dashboard MCP Completo"),
     ("timestamp", Val.str env.nowIso),
     ("clima_cidades", Val.dict
       [("sao_paulo", (pyLookup dashboardData "weather_são_paulo").getD (Val.dict [])),
        ("rio_janeiro", (pyLookup dashboardData "weather_rio_de_janeiro").getD (Val.dict [])),
        ("brasilia", (pyLookup dashboardData "weather_brasília").getD (Val.dict []))]),
     ("mercado_financeiro", (pyLookup dashboardData "market_summary").getD (Val.dict [])),
     ("top_cryptos", (pyLookup dashboardData "top_cryptos").getD (Val.dict [])),
     ("alertas", Val.list (alertas.map Val.str)),
     ("agentes_status", checkAgentsStatus env)])

/-- Embeds `OrchestratorAgent._process_custom_message`. -/
def orchestratorProcessCustom (env : OrchEnv) (msg : MCPMessage) :
    Except String Val :=
  let t := pyLower msg.messageType
  if t = "relatorio_completo" then
    (generateCompleteReport env (payloadGetStr msg "cidade" "São Paulo")).1
  else if t = "clima_e_economia" then
    (getWeatherAndFinance env (payloadGetStr msg "cidade" "São Paulo")).1
  else if t = "multiplas_cidades_completo" then
    getMultipleCitiesComplete env
      (payloadGetStrList msg "cidades" ["São Paulo", "Rio de Janeiro"])
  else if t = "analise_viagem" then
    travelAnalysis env (payloadGetStr msg "origem" "São Paulo")
      (payloadGetStr msg "destino" "Rio de Janeiro")
  else if t = "dashboard" then
    generateDashboard env
  else if t = "status_agentes" then
    Except.ok (checkAgentsStatus env)
  else if t = "ping" then
    Except.ok (Val.dict
      [("response", Val.str "pong"), ("agent", Val.str "orchestrator"),
       ("sub_agents", Val.list [Val.str "weather", Val.str "finance"])])
  else
    Except.error ("Tipo de mensagem não suportado: " ++ t)

/-- Embeds `process_message` of the orchestrator: the spec-modelled boundary around
the custom handler. -/
def orchestratorProcess (env : OrchEnv) (msg : MCPMessage) : Response :=
  processBoundary (orchestratorProcessCustom env msg)

/-! ## Analysis helpers and concrete instances used by the theorems -/

/-- The key list of a dict-shaped result. -/
def valKeys : Val → List String
  | Val.dict d => dictKeys d
  | _ => []

/-- The exchange-rate provider failed for this query: non-200 status, raised
exception, or a 200 body whose `rates` omit the requested target. -/
def exchangeProviderFails (o : ExchangeOutcome) (target : String) : Prop :=
  match o with
  | ExchangeOutcome.ok rates _ => pyLookup rates (pyUpper target) = Option.none
  | ExchangeOutcome.httpError _ => True
  | ExchangeOutcome.raised _ => True

/-- The current-weather provider failed: non-200 status or raised exception
(a body missing an expected field raises while formatting and is the raised
case). -/
def weatherProviderFails (o : WeatherOutcome) : Prop :=
  match o with
  | WeatherOutcome.ok _ => False
  | WeatherOutcome.httpError _ => True
  | WeatherOutcome.raised _ => True

/-- The crypto-price provider failed for this query: non-200 status, raised
exception, or a 200 body omitting the requested coin id. -/
def cryptoProviderFails (o : CryptoOutcome) : Prop :=
  match o with
  | CryptoOutcome.ok entry => entry = Option.none
  | CryptoOutcome.httpError _ => True
  | CryptoOutcome.raised _ => True

/-- The top-cryptos provider failed: non-200 status or raised exception (a
body missing an expected field raises while building the coin list and is
the raised case). -/
def topCryptosProviderFails (o : TopCryptosOutcome) : Prop :=
  match o with
  | TopCryptosOutcome.ok _ => False
  | TopCryptosOutcome.httpError _ => True
  | TopCryptosOutcome.raised _ => True

/-- The forecast provider failed: non-200 status or raised exception (a body
missing an expected field raises while formatting and is the raised case). -/
def forecastProviderFails (o : ForecastOutcome) : Prop :=
  match o with
  | ForecastOutcome.ok _ => False
  | ForecastOutcome.httpError _ => True
  | ForecastOutcome.raised _ => True

/-- The summed rain probability of one zipped forecast day, as computed inside
the best-day loop. -/
def daySum (p : Val × Val) : Except String ℚ := do
  let a ← chuvaDefault p.1 50
  let b ← chuvaDefault p.2 50
  pure (a + b)

/-- The `melhor_dia` dict built by an improving iteration of the best-day
loop, for zipped day `i` whose origin/destination entries are the dicts
`eo`/`ed` (the same literal as in `_suggest_best_travel_day`). -/
def bestDayDict (i : ℕ) (eo ed : List (String × Val)) : Val :=
  Val.dict
    [("dia", Val.num ((i : ℚ) + 1)),
     ("data", (pyLookup eo "data").getD (Val.str "N/A")),
     ("probabilidade_chuva_origem", (pyLookup eo "probabilidade_chuva").getD (Val.num 0)),
     ("probabilidade_chuva_destino", (pyLookup ed "probabilidade_chuva").getD (Val.num 0))]

/-- Every entry of the finance cache carries data whose `fonte` is one of the
real provider markers (never the simulated one). -/
def CacheReal (st : FinState) : Prop :=
  ∀ p ∈ st.cache,
    pyGetItem p.2.data "fonte" = Except.ok (Val.str "ExchangeRate-API") ∨
    pyGetItem p.2.data "fonte" = Except.ok (Val.str "CoinGecko")

/-- Projection of a field out of a successful handler result. -/
def dictField (v : Except String Val) (k : String) : Option Val :=
  match v with
  | Except.ok (Val.dict d) => pyLookup d k
  | _ => Option.none

/-- The entry count of a dict-shaped value. -/
def dictSize : Option Val → Option ℕ
  | some (Val.dict d) => some d.length
  | _ => Option.none

/-- A well-formed provider body for concrete instances. -/
def sampleBody : OWMBody :=
  ⟨"São Paulo", "BR", 25, 26, 60, 1015, "ensolarado", 3, some 90, some 10000, 1700000000⟩

/-- A second well-formed provider body, reporting a different temperature. -/
def sampleBody2 : OWMBody :=
  ⟨"São Paulo", "BR", 30, 31, 55, 1013, "nublado", 4, some 90, some 10000, 1700000300⟩

/-- Fixed random draws for the simulated weather generator. -/
def sampleWeatherRand : WeatherRand := ⟨0, 0, 0, 50, 1015, 5, 100, 10⟩

/-- A weather agent configured with an API key and a session. -/
def keyedWeatherState : WeatherState := ⟨some "chave", true⟩

/-- The finance agent state right after `_custom_initialize`. -/
def freshFinState : FinState := ⟨[], 300, true⟩

/-- The finance agent state when `self.session` stayed `None`. -/
def sessionlessFinState : FinState := ⟨[], 300, false⟩

/-- Market-summary environment of the C2 counterexample: the USD/BRL provider
call succeeds with rate 5, the EUR/BRL provider call returns status 500 (the
EUR quote falls back to its own simulated value), and both crypto calls
succeed. -/
def mixedSummaryEnv : MarketSummaryEnv :=
  { usdOutcome := ExchangeOutcome.ok [("BRL", 5)] 1700000000
    usdRand := ⟨1, 0⟩
    eurOutcome := ExchangeOutcome.httpError 500
    eurRand := ⟨1, 0⟩
    btcOutcome := CryptoOutcome.ok (some ⟨100000, some 1, some 2⟩)
    btcRand := ⟨1, 0, 0⟩
    ethOutcome := CryptoOutcome.ok (some ⟨5000, some 1, some 2⟩)
    ethRand := ⟨1, 0, 0⟩
    summaryRand := ⟨5, 6, 200000, 1, 12000, 1⟩ }

/-- An orchestrator environment whose sub-agents always answer successfully
with small dict payloads. -/
def okEnv : OrchEnv :=
  { weather := fun _ => ⟨true,
      some (Val.dict [("descricao", Val.str "ensolarado")]), Option.none⟩
    finance := fun _ => ⟨true, some (Val.dict [("taxa", Val.num 5)]), Option.none⟩
    weatherStatus := "ready"
    financeStatus := "ready"
    nowIso := "2024-01-01T00:00:00"
    relatorioTs := "20240101_000000" }

/-- An orchestrator environment whose weather sub-agent always fails. -/
def weatherDownEnv : OrchEnv :=
  { weather := fun _ => ⟨false, Option.none, some "weather indisponível"⟩
    finance := fun _ => ⟨true, some (Val.dict [("taxa", Val.num 5)]), Option.none⟩
    weatherStatus := "ready"
    financeStatus := "ready"
    nowIso := "2024-01-01T00:00:00"
    relatorioTs := "20240101_000000" }

/-- An orchestrator environment where current weather and finance succeed
(with small dict payloads) but every forecast request fails. -/
def forecastDownEnv : OrchEnv :=
  { weather := fun m =>
      if m.messageType = "previsao" then
        ⟨false, Option.none, some "previsão indisponível"⟩
      else
        ⟨true, some (Val.dict [("descricao", Val.str "ensolarado")]), Option.none⟩
    finance := fun _ => ⟨true, some (Val.dict []), Option.none⟩
    weatherStatus := "ready"
    financeStatus := "ready"
    nowIso := "2024-01-01T00:00:00"
    relatorioTs := "20240101_000000" }

/-- A finance environment in which every provider call fails with status 500. -/
def downFinEnv : FinEnv :=
  { exchangeOutcome := fun _ _ => ExchangeOutcome.httpError 500
    exchangeRand := fun _ _ => ⟨1, 0⟩
    cryptoOutcome := fun _ _ => CryptoOutcome.httpError 500
    cryptoRand := fun _ _ => ⟨1, 0, 0⟩
    topOutcome := fun _ _ => TopCryptosOutcome.httpError 500
    topRand := ⟨fun _ => 1, fun _ => 1, fun _ => 1, fun _ => 1⟩
    summaryRand := ⟨5, 6, 200000, 1, 12000, 1⟩
    now := 0
    nowIso := "2024-01-01T00:00:00" }

/-- A weather environment in which every provider call fails with status 500. -/
def downWeatherEnv : WeatherEnv :=
  { current := fun _ => WeatherOutcome.httpError 500
    currentRand := fun _ => sampleWeatherRand
    forecast := fun _ => ForecastOutcome.httpError 500
    forecastRand := fun _ _ => ⟨0, 0, 50, 40⟩
    forecastDate := fun _ _ => "2024-01-01"
    now := 0 }

/-- A one-day forecast dict whose single day has rain probability 60. -/
def rainyPrev : Val :=
  Val.dict [("previsoes", Val.list
    [Val.dict [("data", Val.str "2024-01-01"), ("probabilidade_chuva", Val.num 60)]])]

/-- Forecast-point dicts with rain probabilities 50 and 20. -/
def twoDayPrevAList : List Val :=
  [Val.dict [("data", Val.str "2024-01-01"), ("probabilidade_chuva", Val.num 50)],
   Val.dict [("data", Val.str "2024-01-02"), ("probabilidade_chuva", Val.num 20)]]

/-- Forecast-point dicts with rain probabilities 30 and 10. -/
def twoDayPrevBList : List Val :=
  [Val.dict [("data", Val.str "2024-01-01"), ("probabilidade_chuva", Val.num 30)],
   Val.dict [("data", Val.str "2024-01-02"), ("probabilidade_chuva", Val.num 10)]]

/-- A two-day forecast dict with rain probabilities 50 and 20. -/
def twoDayPrevA : Val := Val.dict [("previsoes", Val.list twoDayPrevAList)]

/-- A two-day forecast dict with rain probabilities 30 and 10. -/
def twoDayPrevB : Val := Val.dict [("previsoes", Val.list twoDayPrevBList)]

/-- Per-city results for the C10 witness: one zero temperature, one missing
temperature, and two nonzero temperatures. -/
def comparisonResultados : List (String × Val) :=
  [("Alfa", Val.dict [("clima", Val.dict [("temperatura", Val.num 0)])]),
   ("Beta", Val.dict [("clima", Val.dict [("temperatura", Val.num 30)])]),
   ("Gama", Val.dict [("clima", Val.dict [])]),
   ("Delta", Val.dict [("clima", Val.dict [("temperatura", Val.num 18)])])]

/-! ## Theorems.  Basic dict lemmas shared by the development. -/

theorem pyLookup_pySet_self {α : Type} (d : List (String × α)) (k : String) (v : α) :
    pyLookup (pySet d k v) k = some v := by
  induction d with
  | nil => simp [pySet, pyLookup]
  | cons hd tl ih =>
    by_cases h : hd.1 = k
    · simp [pySet, pyLookup, h]
    · simp [pySet, pyLookup, h, ih]

theorem mem_pySet {α : Type} (d : List (String × α)) (k : String) (v : α)
    (p : String × α) (hp : p ∈ pySet d k v) : p ∈ d ∨ p = (k, v) := by
  induction d with
  | nil => simp [pySet] at hp; right; exact hp
  | cons hd tl ih =>
    by_cases h : hd.1 = k
    · simp [pySet, h] at hp
      rcases hp with h1 | h1
      · right; exact h1
      · left; exact List.mem_cons_of_mem _ h1
    · simp [pySet, h] at hp
      rcases hp with h1 | h1
      · left; simp [h1]
      · rcases ih h1 with h2 | h2
        · left; exact List.mem_cons_of_mem _ h2
        · right; exact h2

theorem pyLookup_mem {α : Type} (d : List (String × α)) (k : String) (v : α)
    (h : pyLookup d k = some v) : (k, v) ∈ d := by
  induction d with
  | nil => simp [pyLookup] at h
  | cons hd tl ih =>
    by_cases hk : hd.1 = k
    · simp [pyLookup, hk] at h
      subst h
      have : (k, hd.2) = hd := by
        cases hd
        simp_all
      rw [this]
      exact List.mem_cons_self _ _
    · simp [pyLookup, hk] at h
      exact List.mem_cons_of_mem _ (ih h)

theorem pyLookup_ne_nil {α : Type} {d : List (String × α)} {k : String} {v : α}
    (h : pyLookup d k = some v) : d ≠ [] := by
  intro he
  subst he
  simp [pyLookup] at h

/-! ### C1 -/

theorem getExchangeRate_cache_hit (st : FinState) (now : ℚ) (base target : String)
    (p : ExchangeOutcome) (r : ExchangeRand) (e : CacheEntry)
    (hfind : pyLookup st.cache ("exchange_" ++ base ++ "_" ++ target) = some e)
    (hfresh : now - e.timestamp < st.cacheTimeout) :
    getExchangeRate st now base target p r = (e.data, st, 0) := by
  have hv : isCacheValid st now ("exchange_" ++ base ++ "_" ++ target) = true := by
    simp [isCacheValid, hfind, hfresh]
  simp [getExchangeRate, hv, hfind]

/-- C1 (amended): in the Finance agent, when a query misses the cache and its
provider call succeeds (200 with the target present in the rates), the result
is cached, so issuing the same query again within the 300-second TTL returns
data identical to the first result and issues zero provider calls. -/
theorem c1_finance_cached_second_call (st : FinState) (now now2 tlu rate : ℚ)
    (base target : String) (rates : List (String × ℚ)) (r1 r2 : ExchangeRand)
    (p2 : ExchangeOutcome)
    (hsess : st.hasSession = true)
    (htimeout : st.cacheTimeout = 300)
    (hmiss : isCacheValid st now ("exchange_" ++ base ++ "_" ++ target) = false)
    (hok : pyLookup rates (pyUpper target) = some rate)
    (hfresh : now2 - now < 300) :
    (getExchangeRate (getExchangeRate st now base target
        (ExchangeOutcome.ok rates tlu) r1).2.1 now2 base target p2 r2).1 =
      (getExchangeRate st now base target (ExchangeOutcome.ok rates tlu) r1).1 ∧
    (getExchangeRate (getExchangeRate st now base target
        (ExchangeOutcome.ok rates tlu) r1).2.1 now2 base target p2 r2).2.2 = 0 := by
  have hcall1 : getExchangeRate st now base target (ExchangeOutcome.ok rates tlu) r1 =
      (realExchangeResult base target rate tlu,
       cacheData st now ("exchange_" ++ base ++ "_" ++ target)
         (realExchangeResult base target rate tlu), 1) := by
    simp [getExchangeRate, hmiss, hsess, hok]
  rw [hcall1]
  have hfind : pyLookup (cacheData st now ("exchange_" ++ base ++ "_" ++ target)
        (realExchangeResult base target rate tlu)).cache
      ("exchange_" ++ base ++ "_" ++ target) =
      some ⟨realExchangeResult base target rate tlu, now⟩ := by
    simp [cacheData, pyLookup_pySet_self]
  rw [getExchangeRate_cache_hit _ _ _ _ _ _ _ hfind (by simp [cacheData, htimeout]; exact hfresh)]
  exact ⟨rfl, rfl⟩

/-- Witness for C1: concrete second call on a fresh finance agent, with the
provider stubbed to fail on the second call, still succeeds from the cache. -/
theorem c1_finance_cached_second_call_witness :
    (getExchangeRate (getExchangeRate freshFinState 0 "USD" "BRL"
        (ExchangeOutcome.ok [("BRL", 5)] 1700000000) ⟨1, 0⟩).2.1 10 "USD" "BRL"
        (ExchangeOutcome.httpError 500) ⟨1, 0⟩).1 =
      (getExchangeRate freshFinState 0 "USD" "BRL"
        (ExchangeOutcome.ok [("BRL", 5)] 1700000000) ⟨1, 0⟩).1 ∧
    (getExchangeRate (getExchangeRate freshFinState 0 "USD" "BRL"
        (ExchangeOutcome.ok [("BRL", 5)] 1700000000) ⟨1, 0⟩).2.1 10 "USD" "BRL"
        (ExchangeOutcome.httpError 500) ⟨1, 0⟩).2.2 = 0 :=
  c1_finance_cached_second_call freshFinState 0 10 1700000000 5 "USD" "BRL"
    [("BRL", 5)] ⟨1, 0⟩ ⟨1, 0⟩ (ExchangeOutcome.httpError 500)
    rfl rfl rfl rfl (by norm_num)

/-- Counterexample to C1 as stated: the Weather agent has no cache, so with
an API key configured a repeated `clima_atual` query issues a provider call
both times (one call each), and the second result tracks the provider body,
not the first result. -/
theorem c1_counterexample :
    (getCurrentWeather keyedWeatherState "São Paulo"
       (WeatherOutcome.ok sampleBody) sampleWeatherRand 0).2 = 1 ∧
    (getCurrentWeather keyedWeatherState "São Paulo"
       (WeatherOutcome.ok sampleBody2) sampleWeatherRand 10).2 = 1 ∧
    pyGetItem (getCurrentWeather keyedWeatherState "São Paulo"
       (WeatherOutcome.ok sampleBody) sampleWeatherRand 0).1 "temperatura" =
      Except.ok (Val.num 25) ∧
    pyGetItem (getCurrentWeather keyedWeatherState "São Paulo"
       (WeatherOutcome.ok sampleBody2) sampleWeatherRand 10).1 "temperatura" =
      Except.ok (Val.num 30) := by
  have hkey : ¬ ("chave" = "") := by decide
  refine ⟨rfl, rfl, ?_, ?_⟩ <;>
    norm_num [getCurrentWeather, keyedWeatherState, pyTruthyStr, formatCurrentWeather,
      sampleBody, sampleBody2, pyGetItem, pyLookup, pyRound, pyRoundInt, hkey] <;> rfl

/-! ### C4 -/

/-- C4: for every agent state, environment and payload, processing a
`clima_multiplas_cidades` message raises `NameError` on the unbound name
`message` while building the return dict, so `process` returns a failed
Response and the per-city results mapping is never delivered. -/
theorem c4_multiple_cities_name_error (st : WeatherState) (env : WeatherEnv)
    (p : List (String × Val)) :
    weatherProcess st env ⟨"clima_multiplas_cidades", p⟩ =
      { success := false, data := Option.none,
        error := some "NameError: name message is not defined" } := by
  have ht : pyLower "clima_multiplas_cidades" = "clima_multiplas_cidades" := by decide
  have h1 : ¬ ("clima_multiplas_cidades" = "clima_atual") := by decide
  have h2 : ¬ ("clima_multiplas_cidades" = "previsao") := by decide
  have hm : ¬ ("message" ∈ multipleCitiesLocals ∨ "message" ∈ weatherModuleGlobals) := by
    decide
  simp [weatherProcess, weatherProcessCustom, ht, h1, h2, getMultipleCitiesWeather,
    pyName, hm, processBoundary, Bind.bind, Except.bind]

/-! ### C9 -/

/-- C9: for each of the three agents, a message whose lower-cased type is not
one of that agent's recognized types yields a failed Response whose error
names the unsupported type, with no exception escaping `process` (and, for
the finance agent, an unchanged cache state). -/
theorem c9_unknown_type_failure (t : String) (p : List (String × Val))
    (wst : WeatherState) (wenv : WeatherEnv) (fst0 : FinState) (fenv : FinEnv)
    (oenv : OrchEnv) :
    (pyLower t ∉ (["clima_atual", "previsao", "clima_multiplas_cidades",
        "ping"] : List String) →
      weatherProcess wst wenv ⟨t, p⟩ =
        { success := false, data := Option.none,
          error := some ("Tipo de mensagem não suportado: " ++ pyLower t) }) ∧
    (pyLower t ∉ (["cotacao_moeda", "cotacao_crypto", "multiplas_moedas",
        "top_cryptos", "resumo_mercado", "ping"] : List String) →
      (financeProcess fst0 fenv ⟨t, p⟩).1 =
        { success := false, data := Option.none,
          error := some ("Tipo de mensagem não suportado: " ++ pyLower t) } ∧
      (financeProcess fst0 fenv ⟨t, p⟩).2 = fst0) ∧
    (pyLower t ∉ (["relatorio_completo", "clima_e_economia",
        "multiplas_cidades_completo", "analise_viagem", "dashboard",
        "status_agentes", "ping"] : List String) →
      orchestratorProcess oenv ⟨t, p⟩ =
        { success := false, data := Option.none,
          error := some ("Tipo de mensagem não suportado: " ++ pyLower t) }) := by
  refine ⟨fun hw => ?_, fun hf => ?_, fun ho => ?_⟩
  · simp only [List.mem_cons, List.mem_singleton, not_or] at hw
    obtain ⟨h1, h2, h3, h4, -⟩ := hw
    simp [weatherProcess, weatherProcessCustom, processBoundary, h1, h2, h3, h4]
  · simp only [List.mem_cons, List.mem_singleton, not_or] at hf
    obtain ⟨h1, h2, h3, h4, h5, h6, -⟩ := hf
    constructor <;>
      simp [financeProcess, financeProcessCustom, processBoundary, h1, h2, h3, h4, h5, h6]
  · simp only [List.mem_cons, List.mem_singleton, not_or] at ho
    obtain ⟨h1, h2, h3, h4, h5, h6, h7, -⟩ := ho
    simp [orchestratorProcess, orchestratorProcessCustom, processBoundary,
      h1, h2, h3, h4, h5, h6, h7]

/-- Witness for C9 at the concrete unknown type `"desconhecido"`. -/
theorem c9_unknown_type_failure_witness :
    weatherProcess keyedWeatherState downWeatherEnv ⟨"desconhecido", []⟩ =
      { success := false, data := Option.none,
        error := some ("Tipo de mensagem não suportado: " ++ pyLower "desconhecido") } ∧
    (financeProcess freshFinState downFinEnv ⟨"desconhecido", []⟩).1 =
      { success := false, data := Option.none,
        error := some ("Tipo de mensagem não suportado: " ++ pyLower "desconhecido") } ∧
    orchestratorProcess okEnv ⟨"desconhecido", []⟩ =
      { success := false, data := Option.none,
        error := some ("Tipo de mensagem não suportado: " ++ pyLower "desconhecido") } := by
  have h := c9_unknown_type_failure "desconhecido" [] keyedWeatherState downWeatherEnv
    freshFinState downFinEnv okEnv
  exact ⟨h.1 (by decide), (h.2.1 (by decide)).1, h.2.2 (by decide)⟩

/-! ### C5 -/

/-- C5: for every data-source query — exchange rate, crypto price, top
cryptos, current weather and forecast — when the provider fails (non-200,
raised exception, or expected field missing), the operation still returns a
value: the simulated one, whose `fonte` is `"Dados Simulados"` and whose key
set equals that of the corresponding successful real response. -/
theorem c5_provider_failure_simulated_shape (st : FinState) (now : ℚ)
    (base target : String) (eo : ExchangeOutcome) (er : ExchangeRand)
    (crypto currency : String) (co : CryptoOutcome) (cr : CryptoRand)
    (limit : ℕ) (tcur : String) (tco : TopCryptosOutcome) (tr : TopCryptosRand)
    (wst : WeatherState) (cidade : String) (wo : WeatherOutcome)
    (wr : WeatherRand) (dias : ℕ) (fo : ForecastOutcome)
    (fr : ℕ → ForecastDayRand) (dateStr : ℕ → String)
    (rate tlu : ℚ) (ce : CryptoEntry) (coins : List MarketCoin)
    (body : OWMBody) (fbody : ForecastBody)
    (hex : exchangeProviderFails eo target)
    (hcr : cryptoProviderFails co)
    (htc : topCryptosProviderFails tco)
    (hw : weatherProviderFails wo)
    (hfc : forecastProviderFails fo)
    (hmiss : isCacheValid st now ("exchange_" ++ base ++ "_" ++ target) = false)
    (hmissCr : isCacheValid st now ("crypto_" ++ crypto ++ "_" ++ currency) = false)
    (hmissTop : isCacheValid st now
      ("top_cryptos_" ++ toString limit ++ "_" ++ tcur) = false)
    (hsess : st.hasSession = true) :
    (pyGetItem (getExchangeRate st now base target eo er).1 "fonte" =
       Except.ok (Val.str "Dados Simulados") ∧
     valKeys (getExchangeRate st now base target eo er).1 =
       valKeys (realExchangeResult base target rate tlu)) ∧
    (pyGetItem (getCryptoPrice st now crypto currency co cr).1 "fonte" =
       Except.ok (Val.str "Dados Simulados") ∧
     valKeys (getCryptoPrice st now crypto currency co cr).1 =
       valKeys (realCryptoResult crypto currency ce now)) ∧
    (pyGetItem (getTopCryptos st now limit tcur tco tr).1 "fonte" =
       Except.ok (Val.str "Dados Simulados") ∧
     valKeys (getTopCryptos st now limit tcur tco tr).1 =
       valKeys (realTopCryptosResult limit tcur coins now)) ∧
    (pyGetItem (getCurrentWeather wst cidade wo wr now).1 "fonte" =
       Except.ok (Val.str "Dados Simulados") ∧
     valKeys (getCurrentWeather wst cidade wo wr now).1 =
       valKeys (formatCurrentWeather body)) ∧
    (pyGetItem (getForecast wst cidade dias fo fr dateStr).1 "fonte" =
       Except.ok (Val.str "Dados Simulados") ∧
     valKeys (getForecast wst cidade dias fo fr dateStr).1 =
       valKeys (formatForecast fbody dias)) := by
  have hsimEx : (getExchangeRate st now base target eo er).1 =
      getSimulatedExchangeRate base target er now := by
    cases eo with
    | ok rates tlu2 =>
      have hnone : pyLookup rates (pyUpper target) = Option.none := hex
      simp [getExchangeRate, hmiss, hsess, hnone]
    | httpError s => simp [getExchangeRate, hmiss, hsess]
    | raised m => simp [getExchangeRate, hmiss, hsess]
  have hsimCr : (getCryptoPrice st now crypto currency co cr).1 =
      getSimulatedCryptoPrice crypto currency cr now := by
    cases co with
    | ok entry =>
      have hnone : entry = Option.none := hcr
      subst hnone
      simp [getCryptoPrice, hmissCr, hsess]
    | httpError s => simp [getCryptoPrice, hmissCr, hsess]
    | raised m => simp [getCryptoPrice, hmissCr, hsess]
  have hsimTc : (getTopCryptos st now limit tcur tco tr).1 =
      getSimulatedTopCryptos limit tcur tr now := by
    cases tco with
    | ok cs => exact absurd htc (by simp [topCryptosProviderFails])
    | httpError s => simp [getTopCryptos, hmissTop, hsess]
    | raised m => simp [getTopCryptos, hmissTop, hsess]
  have hsimW : (getCurrentWeather wst cidade wo wr now).1 =
      getSimulatedWeather cidade wr now := by
    cases wo with
    | ok b => exact absurd hw (by simp [weatherProviderFails])
    | httpError s =>
      by_cases hk : (pyTruthyStr wst.apiKey && wst.hasSession) = true <;>
        simp [getCurrentWeather, hk]
    | raised m =>
      by_cases hk : (pyTruthyStr wst.apiKey && wst.hasSession) = true <;>
        simp [getCurrentWeather, hk]
  have hsimF : (getForecast wst cidade dias fo fr dateStr).1 =
      getSimulatedForecast cidade dias fr dateStr := by
    cases fo with
    | ok b => exact absurd hfc (by simp [forecastProviderFails])
    | httpError s =>
      by_cases hk : (pyTruthyStr wst.apiKey && wst.hasSession) = true <;>
        simp [getForecast, hk]
    | raised m =>
      by_cases hk : (pyTruthyStr wst.apiKey && wst.hasSession) = true <;>
        simp [getForecast, hk]
  rw [hsimEx, hsimCr, hsimTc, hsimW, hsimF]
  exact ⟨⟨rfl, rfl⟩, ⟨rfl, rfl⟩, ⟨rfl, rfl⟩, ⟨rfl, rfl⟩, ⟨rfl, rfl⟩⟩

/-- Witness for C5: concrete provider failures for all five operations (a
500 status for the exchange, crypto and forecast calls, a raised network
error for the top-cryptos and current-weather calls) on fresh agents. -/
theorem c5_provider_failure_simulated_shape_witness :
    (pyGetItem (getExchangeRate freshFinState 0 "USD" "BRL"
        (ExchangeOutcome.httpError 500) ⟨1, 0⟩).1 "fonte" =
       Except.ok (Val.str "Dados Simulados") ∧
     valKeys (getExchangeRate freshFinState 0 "USD" "BRL"
        (ExchangeOutcome.httpError 500) ⟨1, 0⟩).1 =
       valKeys (realExchangeResult "USD" "BRL" 5 0)) ∧
    (pyGetItem (getCryptoPrice freshFinState 0 "bitcoin" "brl"
        (CryptoOutcome.httpError 500) ⟨1, 0, 0⟩).1 "fonte" =
       Except.ok (Val.str "Dados Simulados") ∧
     valKeys (getCryptoPrice freshFinState 0 "bitcoin" "brl"
        (CryptoOutcome.httpError 500) ⟨1, 0, 0⟩).1 =
       valKeys (realCryptoResult "bitcoin" "brl" ⟨100, some 1, some 2⟩ 0)) ∧
    (pyGetItem (getTopCryptos freshFinState 0 5 "brl"
        (TopCryptosOutcome.raised "timeout") ⟨fun _ => 1, fun _ => 1, fun _ => 1, fun _ => 1⟩).1
        "fonte" = Except.ok (Val.str "Dados Simulados") ∧
     valKeys (getTopCryptos freshFinState 0 5 "brl"
        (TopCryptosOutcome.raised "timeout") ⟨fun _ => 1, fun _ => 1, fun _ => 1, fun _ => 1⟩).1 =
       valKeys (realTopCryptosResult 5 "brl" [] 0)) ∧
    (pyGetItem (getCurrentWeather keyedWeatherState "São Paulo"
        (WeatherOutcome.raised "timeout") sampleWeatherRand 0).1 "fonte" =
       Except.ok (Val.str "Dados Simulados") ∧
     valKeys (getCurrentWeather keyedWeatherState "São Paulo"
        (WeatherOutcome.raised "timeout") sampleWeatherRand 0).1 =
       valKeys (formatCurrentWeather sampleBody)) ∧
    (pyGetItem (getForecast keyedWeatherState "São Paulo" 3
        (ForecastOutcome.httpError 500) (fun _ => ⟨0, 0, 50, 40⟩)
        (fun _ => "2024-01-01")).1 "fonte" =
       Except.ok (Val.str "Dados Simulados") ∧
     valKeys (getForecast keyedWeatherState "São Paulo" 3
        (ForecastOutcome.httpError 500) (fun _ => ⟨0, 0, 50, 40⟩)
        (fun _ => "2024-01-01")).1 =
       valKeys (formatForecast ⟨[], "São Paulo", "BR"⟩ 3)) :=
  c5_provider_failure_simulated_shape freshFinState 0 "USD" "BRL"
    (ExchangeOutcome.httpError 500) ⟨1, 0⟩ "bitcoin" "brl"
    (CryptoOutcome.httpError 500) ⟨1, 0, 0⟩ 5 "brl"
    (TopCryptosOutcome.raised "timeout") ⟨fun _ => 1, fun _ => 1, fun _ => 1, fun _ => 1⟩
    keyedWeatherState "São Paulo" (WeatherOutcome.raised "timeout") sampleWeatherRand
    3 (ForecastOutcome.httpError 500) (fun _ => ⟨0, 0, 50, 40⟩) (fun _ => "2024-01-01")
    5 0 ⟨100, some 1, some 2⟩ [] sampleBody ⟨[], "São Paulo", "BR"⟩
    trivial trivial trivial trivial trivial rfl rfl rfl rfl

/-! ### C2 -/

theorem simulated_summary_has_fonte (r : SummaryRand) (now : ℚ) (iso : String) :
    pyGetItem (getSimulatedMarketSummary r now iso) "fonte" =
      Except.ok (Val.str "Dados Simulados") := rfl

/-- Counterexample to C2 as stated: with the USD/BRL provider call
succeeding (rate 5), the EUR/BRL provider call failing with status 500 and
both crypto calls succeeding, the summary is the merged dict with the real
USD rate next to the simulated EUR rate — a partial mix, not the fully
simulated variant (the merged dict has no `fonte` key, which every simulated
summary carries). -/
theorem c2_counterexample :
    mixedSummaryEnv.eurOutcome = ExchangeOutcome.httpError 500 ∧
    (getMarketSummary freshFinState 0 "2024-01-01T00:00:00" mixedSummaryEnv).1 =
      Val.dict
        [("moedas", Val.dict [("USD/BRL", Val.num 5), ("EUR/BRL", Val.num (29/5))]),
         ("cryptos", Val.dict
           [("Bitcoin", Val.dict [("preco", Val.num 100000), ("variacao_24h", Val.num 1)]),
            ("Ethereum", Val.dict [("preco", Val.num 5000), ("variacao_24h", Val.num 1)])]),
         ("timestamp", Val.num 0),
         ("resumo_gerado_em", Val.str "2024-01-01T00:00:00")] ∧
    pyGetItem (getMarketSummary freshFinState 0 "2024-01-01T00:00:00" mixedSummaryEnv).1
      "fonte" = Except.error "KeyError: fonte" := by
  have hmain : (getMarketSummary freshFinState 0 "2024-01-01T00:00:00" mixedSummaryEnv).1 =
      Val.dict
        [("moedas", Val.dict
           [("USD/BRL", Val.num 5),
            ("EUR/BRL", Val.num (pyRound (58 / 10 * (1 + 0)) 4))]),
         ("cryptos", Val.dict
           [("Bitcoin", Val.dict [("preco", Val.num 100000), ("variacao_24h", Val.num 1)]),
            ("Ethereum", Val.dict [("preco", Val.num 5000), ("variacao_24h", Val.num 1)])]),
         ("timestamp", Val.num ((pyInt 0 : ℤ) : ℚ)),
         ("resumo_gerado_em", Val.str "2024-01-01T00:00:00")] := by rfl
  have hnum : pyRound ((58 : ℚ) / 10 * (1 + 0)) 4 = 29/5 := by
    norm_num [pyRound, pyRoundInt]
  have hint : ((pyInt 0 : ℤ) : ℚ) = 0 := by norm_num [pyInt]
  refine ⟨rfl, ?_, ?_⟩
  · rw [hmain, hnum, hint]
  · rw [hmain]
    rfl

/-- C2 (amended): the all-simulated fallback of `_get_market_summary` fires
when a sub-call yields no value for the merge, e.g. whenever the session is
absent and the USD/BRL quote misses the cache (the sub-call then implicitly
returns `None` and the merge subscript raises); a provider-level failure
inside a quote call is instead absorbed by that quote's own simulated value,
which is merged with the other quotes (see the counterexample). -/
theorem c2_summary_fallback_all_simulated (st : FinState) (now : ℚ) (iso : String)
    (env : MarketSummaryEnv)
    (hsess : st.hasSession = false)
    (hmiss : isCacheValid st now "exchange_USD_BRL" = false) :
    (getMarketSummary st now iso env).1 =
      getSimulatedMarketSummary env.summaryRand now iso := by
  have husd : getExchangeRate st now "USD" "BRL" env.usdOutcome env.usdRand =
      (Val.none, st, 0) := by
    simp [getExchangeRate, hmiss, hsess]
  simp [getMarketSummary, husd, pyGetItem, Bind.bind, Except.bind]

/-- Witness for C2 (amended): the session-less finance agent returns the
fully simulated summary. -/
theorem c2_summary_fallback_all_simulated_witness :
    (getMarketSummary sessionlessFinState 0 "2024-01-01T00:00:00" mixedSummaryEnv).1 =
      getSimulatedMarketSummary mixedSummaryEnv.summaryRand 0 "2024-01-01T00:00:00" :=
  c2_summary_fallback_all_simulated sessionlessFinState 0 "2024-01-01T00:00:00"
    mixedSummaryEnv rfl rfl

/-! ### C3 -/

/-- C3 (amended): when the weather-current sub-call fails,
`_generate_complete_report` returns the `erro` dict mentioning the weather
failure before any finance message is issued (zero finance queries), and the
orchestrator `process` wraps that dict in a Response with `success = true`
(not `false`); when the weather-current sub-call succeeds, the finance
summary is always queried (forecast failure does not abort), and on the
concrete forecast-failing environment the report is still produced. -/
theorem c3_weather_failure_early_return (env : OrchEnv) (cidade : String) :
    ((env.weather (mkMsg "clima_atual" [("cidade", Val.str cidade)])).success = false →
      generateCompleteReport env cidade =
        (Except.ok (Val.dict
           [("erro", Val.str ("Falha ao obter dados climáticos: " ++
              strOfOptErr (env.weather
                (mkMsg "clima_atual" [("cidade", Val.str cidade)])).error))]),
         [("weather", mkMsg "clima_atual" [("cidade", Val.str cidade)])]) ∧
      (orchestratorProcess env
        (mkMsg "relatorio_completo" [("cidade", Val.str cidade)])).success = true) ∧
    ((env.weather (mkMsg "clima_atual" [("cidade", Val.str cidade)])).success = true →
      (generateCompleteReport env cidade).2 =
        [("weather", mkMsg "clima_atual" [("cidade", Val.str cidade)]),
         ("weather", mkMsg "previsao" [("cidade", Val.str cidade), ("dias", Val.num 3)]),
         ("finance", mkMsg "resumo_mercado" [])]) ∧
    ((forecastDownEnv.weather
        (mkMsg "previsao" [("cidade", Val.str "Curitiba"), ("dias", Val.num 3)])).success =
        false ∧
     ∃ v, (generateCompleteReport forecastDownEnv "Curitiba").1 = Except.ok v) := by
  refine ⟨fun hfail => ?_, fun hok => ?_, rfl, ?_⟩
  · constructor
    · simp [generateCompleteReport, hfail]
    · have hrep : (generateCompleteReport env cidade).1 = Except.ok (Val.dict
          [("erro", Val.str ("Falha ao obter dados climáticos: " ++
             strOfOptErr (env.weather
               (mkMsg "clima_atual" [("cidade", Val.str cidade)])).error))]) := by
        simp [generateCompleteReport, hfail]
      have hdisp : orchestratorProcessCustom env
          (mkMsg "relatorio_completo" [("cidade", Val.str cidade)]) =
          (generateCompleteReport env cidade).1 := by
        have ht : pyLower "relatorio_completo" = "relatorio_completo" := by decide
        simp [orchestratorProcessCustom, mkMsg, ht, payloadGetStr, pyLookup]
      simp [orchestratorProcess, hdisp, hrep, processBoundary]
  · rcases hfin : (env.finance (mkMsg "resumo_mercado" [])).success with _ | _ <;>
      simp [generateCompleteReport, hok, hfin]
  · exact ⟨_, rfl⟩

/-- Counterexample to C3 as stated: with the weather sub-agent failing, the
orchestrator Response has `success = true` and `error = None`; the error
marker travels inside `data` instead. -/
theorem c3_counterexample :
    (orchestratorProcess weatherDownEnv
       (mkMsg "relatorio_completo" [("cidade", Val.str "São Paulo")])).success = true ∧
    (orchestratorProcess weatherDownEnv
       (mkMsg "relatorio_completo" [("cidade", Val.str "São Paulo")])).error =
      Option.none ∧
    (orchestratorProcess weatherDownEnv
       (mkMsg "relatorio_completo" [("cidade", Val.str "São Paulo")])).data =
      some (Val.dict
        [("erro", Val.str "Falha ao obter dados climáticos: weather indisponível")]) := by
  refine ⟨rfl, rfl, rfl⟩

/-- Witness for C3 (amended), discharging the failure hypothesis on the
concrete weather-down environment. -/
theorem c3_weather_failure_early_return_witness :
    generateCompleteReport weatherDownEnv "São Paulo" =
      (Except.ok (Val.dict
         [("erro", Val.str ("Falha ao obter dados climáticos: " ++
            strOfOptErr (weatherDownEnv.weather
              (mkMsg "clima_atual" [("cidade", Val.str "São Paulo")])).error))]),
       [("weather", mkMsg "clima_atual" [("cidade", Val.str "São Paulo")])]) :=
  ((c3_weather_failure_early_return weatherDownEnv "São Paulo").1 rfl).1

/-! ### C6 -/

theorem pySet_append {α : Type} (d : List (String × α)) (k : String) (v : α)
    (h : k ∉ d.map Prod.fst) : pySet d k v = d ++ [(k, v)] := by
  induction d with
  | nil => rfl
  | cons hd tl ih =>
    have h1 : ¬ hd.1 = k := by
      intro e
      exact h (by simp [e])
    have h2 : k ∉ tl.map Prod.fst := by
      intro e
      exact h (by simp [e])
    simp [pySet, h1, ih h2]

/-- The per-city loop of `_get_multiple_cities_complete` over distinct cities
whose composite query succeeds: it produces one entry per city, in order. -/
theorem citiesFold_spec (env : OrchEnv) (cidades : List String)
    (acc : List (String × Val))
    (hnodup : cidades.Nodup)
    (hdisj : ∀ c ∈ cidades, c ∉ acc.map Prod.fst)
    (hok : ∀ c ∈ cidades, ∃ v, (getWeatherAndFinance env c).1 = Except.ok v) :
    ∃ res, (cidades.foldlM
        (fun (a : List (String × Val)) cidade => do
          let r ← (getWeatherAndFinance env cidade).1
          pure (pySet a cidade r)) acc) = Except.ok res ∧
      res.map Prod.fst = acc.map Prod.fst ++ cidades := by
  induction cidades generalizing acc with
  | nil => exact ⟨acc, rfl, by simp⟩
  | cons c cs ih =>
    obtain ⟨v, hv⟩ := hok c (List.mem_cons_self c cs)
    have hnd := List.nodup_cons.mp hnodup
    have hcacc : c ∉ acc.map Prod.fst := hdisj c (List.mem_cons_self c cs)
    have hdisj2 : ∀ x ∈ cs, x ∉ (pySet acc c v).map Prod.fst := by
      intro x hx
      rw [pySet_append acc c v hcacc]
      simp only [List.map_append, List.map_cons, List.map_nil, List.mem_append,
        List.mem_singleton]
      rintro (hmem | he)
      · exact hdisj x (List.mem_cons_of_mem c hx) hmem
      · exact hnd.1 (he ▸ hx)
    obtain ⟨res, hres, hmap⟩ := ih (pySet acc c v) hnd.2 hdisj2
      (fun x hx => hok x (List.mem_cons_of_mem c hx))
    refine ⟨res, ?_, ?_⟩
    · simpa [List.foldlM, hv] using hres
    · rw [hmap, pySet_append acc c v hcacc]
      simp

/-- C6 (amended): for a list of distinct cities whose composite per-city
query succeeds, `multiplas_cidades_completo` returns one `cidades` entry per
requested city (in order) and `total_processadas` equal to the number of
cities. -/
theorem c6_distinct_cities_complete (env : OrchEnv) (cidades : List String)
    (hnodup : cidades.Nodup)
    (hok : ∀ c ∈ cidades, ∃ v, (getWeatherAndFinance env c).1 = Except.ok v) :
    ∃ res, getMultipleCitiesComplete env cidades = Except.ok (Val.dict
        [("cidades", Val.dict res),
         ("total_processadas", Val.num ((cidades.length : ℕ) : ℚ)),
         ("comparacao", compareCities res),
         ("timestamp", Val.str env.nowIso),
         ("processamento", Val.str "sequencial")]) ∧
      res.map Prod.fst = cidades ∧ res.length = cidades.length := by
  obtain ⟨res, hres, hmap⟩ := citiesFold_spec env cidades [] hnodup (by simp) hok
  have hlen : res.length = cidades.length := by
    have := congrArg List.length hmap
    simpa using this
  refine ⟨res, ?_, by simpa using hmap, hlen⟩
  simp only [getMultipleCitiesComplete]
  rw [hres]
  rfl

/-- Witness for C6 (amended) on two distinct cities. -/
theorem c6_distinct_cities_complete_witness :
    ∃ res, getMultipleCitiesComplete okEnv ["Alfa", "Beta"] = Except.ok (Val.dict
        [("cidades", Val.dict res),
         ("total_processadas", Val.num (((["Alfa", "Beta"] : List String).length : ℕ) : ℚ)),
         ("comparacao", compareCities res),
         ("timestamp", Val.str okEnv.nowIso),
         ("processamento", Val.str "sequencial")]) ∧
      res.map Prod.fst = ["Alfa", "Beta"] ∧
      res.length = (["Alfa", "Beta"] : List String).length :=
  c6_distinct_cities_complete okEnv ["Alfa", "Beta"] (by decide)
    (fun c _ => ⟨_, rfl⟩)

/-- Counterexample to C6 as stated: requesting the same city twice yields a
single `cidades` entry (the dict key collapses) while `total_processadas`
still reports 2. -/
theorem c6_counterexample :
    dictSize (dictField
      (getMultipleCitiesComplete okEnv ["São Paulo", "São Paulo"]) "cidades") =
      some 1 ∧
    dictField (getMultipleCitiesComplete okEnv ["São Paulo", "São Paulo"])
      "total_processadas" = some (Val.num ((2 : ℕ) : ℚ)) := by
  exact ⟨rfl, rfl⟩

/-! ### C7 -/

theorem chuvaDefault_ok_dict (v : Val) (d q : ℚ)
    (h : chuvaDefault v d = Except.ok q) : ∃ e, v = Val.dict e := by
  cases v with
  | dict e => exact ⟨e, rfl⟩
  | num _ => simp [chuvaDefault] at h
  | str _ => simp [chuvaDefault] at h
  | bool _ => simp [chuvaDefault] at h
  | none => simp [chuvaDefault] at h
  | list _ => simp [chuvaDefault] at h

theorem daySum_inv (p : Val × Val) (s : ℚ) (h : daySum p = Except.ok s) :
    ∃ a b, chuvaDefault p.1 50 = Except.ok a ∧ chuvaDefault p.2 50 = Except.ok b ∧
      a + b = s := by
  unfold daySum at h
  cases ha : chuvaDefault p.1 50 with
  | error e => simp [ha, Bind.bind, Except.bind] at h
  | ok a =>
    cases hb : chuvaDefault p.2 50 with
    | error e => simp [ha, hb, Bind.bind, Except.bind] at h
    | ok b =>
      simp [ha, hb, Bind.bind, Except.bind, pure, Except.pure] at h
      exact ⟨a, b, rfl, rfl, h⟩

theorem bestDayDict_dia (i : ℕ) (eo ed : List (String × Val)) :
    pyGetItem (bestDayDict i eo ed) "dia" = Except.ok (Val.num ((i : ℚ) + 1)) := rfl

theorem bestDayStep_eq (acc : BestDay) (i : ℕ) (eo ed : List (String × Val))
    (a b : ℚ)
    (ha : chuvaDefault (Val.dict eo) 50 = Except.ok a)
    (hb : chuvaDefault (Val.dict ed) 50 = Except.ok b) :
    bestDayStep acc i (Val.dict eo) (Val.dict ed) =
      Except.ok (if a + b < acc.menorChuva
        then ⟨some (bestDayDict i eo ed), a + b⟩ else acc) := by
  by_cases h : a + b < acc.menorChuva <;>
    simp [bestDayStep, ha, hb, h, pyGetD, bestDayDict, Bind.bind, Except.bind,
      pure, Except.pure]

/-- Once the running minimum is at or below every remaining day, the loop
leaves the accumulator unchanged. -/
theorem bestDayFold_no_improve (zipped : List (Val × Val)) (sums : List ℚ)
    (hf : List.Forall₂ (fun p s => daySum p = Except.ok s) zipped sums)
    (k : ℕ) (acc : BestDay)
    (hge : ∀ s ∈ sums, acc.menorChuva ≤ s) :
    bestDayFold (zipped.enumFrom k) acc = Except.ok acc := by
  induction hf generalizing k with
  | nil => rfl
  | @cons p s ps ss hps hrest ih =>
    obtain ⟨a, b, ha, hb, hab⟩ := daySum_inv p s hps
    obtain ⟨eo, heo⟩ := chuvaDefault_ok_dict p.1 50 a ha
    obtain ⟨ed, hed⟩ := chuvaDefault_ok_dict p.2 50 b hb
    have hstep := bestDayStep_eq acc k eo ed a b (heo ▸ ha) (hed ▸ hb)
    have hnlt : ¬ (a + b < acc.menorChuva) := by
      rw [hab]
      exact not_lt.mpr (hge s (List.mem_cons_self s ss))
    have hcons : (p :: ps).enumFrom k = (k, p) :: ps.enumFrom (k + 1) := rfl
    rw [hcons]
    have hhead : bestDayFold ((k, p) :: ps.enumFrom (k + 1)) acc =
        (bestDayStep acc k p.1 p.2).bind (fun acc2 => bestDayFold (ps.enumFrom (k + 1)) acc2) := rfl
    rw [hhead, heo, hed, hstep]
    simp only [hnlt, if_false, Except.bind]
    exact ih (k + 1) (fun t ht => hge t (List.mem_cons_of_mem s ht))

/-- The best-day loop returns the dict of the first day attaining the
minimal summed rain probability, provided that minimum is strictly below the
accumulator's current one. -/
theorem bestDayFold_first_min (zipped : List (Val × Val)) (sums : List ℚ) (m : ℚ)
    (hf : List.Forall₂ (fun p s => daySum p = Except.ok s) zipped sums) :
    ∀ (k : ℕ) (acc : BestDay), m ∈ sums → (∀ s ∈ sums, m ≤ s) →
      m < acc.menorChuva →
      ∃ eo ed, bestDayFold (zipped.enumFrom k) acc =
        Except.ok ⟨some (bestDayDict (k + sums.indexOf m) eo ed), m⟩ := by
  induction hf with
  | nil =>
    intro k acc hmem _ _
    exact absurd hmem (List.not_mem_nil m)
  | @cons p s ps ss hps hrest ih =>
    intro k acc hmem hle hlt
    obtain ⟨a, b, ha, hb, hab⟩ := daySum_inv p s hps
    obtain ⟨eo, heo⟩ := chuvaDefault_ok_dict p.1 50 a ha
    obtain ⟨ed, hed⟩ := chuvaDefault_ok_dict p.2 50 b hb
    have hstep := bestDayStep_eq acc k eo ed a b (heo ▸ ha) (hed ▸ hb)
    have hcons : (p :: ps).enumFrom k = (k, p) :: ps.enumFrom (k + 1) := rfl
    have hhead : bestDayFold ((k, p) :: ps.enumFrom (k + 1)) acc =
        (bestDayStep acc k p.1 p.2).bind (fun acc2 => bestDayFold (ps.enumFrom (k + 1)) acc2) := rfl
    by_cases hsm : s = m
    · subst hsm
      have himp : a + b < acc.menorChuva := by rw [hab]; exact hlt
      refine ⟨eo, ed, ?_⟩
      rw [hcons, hhead, heo, hed, hstep]
      simp only [himp, if_true, Except.bind]
      have htail := bestDayFold_no_improve ps ss hrest (k + 1)
        ⟨some (bestDayDict k eo ed), a + b⟩
        (by intro t ht; simp only [hab]; exact hle t (List.mem_cons_of_mem s ht))
      rw [htail]
      have hidx : List.indexOf s (s :: ss) = 0 := List.indexOf_cons_self s ss
      rw [hidx, hab]
      simp
    · have hmem2 : m ∈ ss := by
        rcases List.mem_cons.mp hmem with h | h
        · exact absurd h.symm hsm
        · exact h
      have hle2 : ∀ t ∈ ss, m ≤ t := fun t ht => hle t (List.mem_cons_of_mem s ht)
      have hidx : List.indexOf m (s :: ss) = (List.indexOf m ss) + 1 :=
        List.indexOf_cons_ne ss hsm
      have harith : k + List.indexOf m (s :: ss) = (k + 1) + List.indexOf m ss := by
        rw [hidx]; omega
      by_cases himp : a + b < acc.menorChuva
      · have hlt2 : m < (⟨some (bestDayDict k eo ed), a + b⟩ : BestDay).menorChuva := by
          show m < a + b
          rw [hab]
          exact lt_of_le_of_ne (hle s (List.mem_cons_self s ss)) (fun e => hsm e.symm)
        obtain ⟨eo2, ed2, hih⟩ := ih (k + 1) ⟨some (bestDayDict k eo ed), a + b⟩
          hmem2 hle2 hlt2
        refine ⟨eo2, ed2, ?_⟩
        rw [hcons, hhead, heo, hed, hstep]
        simp only [himp, if_true, Except.bind]
        rw [harith]
        exact hih
      · obtain ⟨eo2, ed2, hih⟩ := ih (k + 1) acc hmem2 hle2 hlt
        refine ⟨eo2, ed2, ?_⟩
        rw [hcons, hhead, heo, hed, hstep]
        simp only [himp, if_false, Except.bind]
        rw [harith]
        exact hih

/-- C7 (amended): when both forecasts are dicts with nonempty `previsoes`
lists and some zipped day's summed rain probability is strictly below 100,
`_suggest_best_travel_day` returns the dict of the first day attaining the
minimal sum, with its 1-based `dia` index.  (When every day's sum is at
least 100 the loop selects nothing; see the counterexample.) -/
theorem c7_best_day_minimal (doE ddE : List (String × Val)) (lo ld : List Val)
    (sums : List ℚ) (m : ℚ)
    (hpo : pyLookup doE "previsoes" = some (Val.list lo))
    (hpd : pyLookup ddE "previsoes" = some (Val.list ld))
    (hf : List.Forall₂ (fun p s => daySum p = Except.ok s) (lo.zip ld) sums)
    (hmem : m ∈ sums) (hle : ∀ s ∈ sums, m ≤ s) (hlt : m < 100) :
    ∃ dd, suggestBestTravelDay (Val.dict doE) (Val.dict ddE) = Except.ok dd ∧
      pyGetItem dd "dia" = Except.ok (Val.num ((sums.indexOf m : ℚ) + 1)) := by
  obtain ⟨eo, ed, hfold⟩ := bestDayFold_first_min (lo.zip ld) sums m hf 0
    ⟨Option.none, 100⟩ hmem hle hlt
  have hsums_ne : sums ≠ [] := by
    rintro rfl
    exact absurd hmem (List.not_mem_nil m)
  have hzlen : (lo.zip ld).length = sums.length := hf.length_eq
  have hlo_ne : lo.isEmpty = false := by
    cases lo with
    | nil =>
      exfalso
      apply hsums_ne
      simp only [List.zip_nil_left, List.length_nil] at hzlen
      exact (List.length_eq_zero.mp hzlen.symm)
    | cons x xs => rfl
  have hld_ne : ld.isEmpty = false := by
    cases ld with
    | nil =>
      exfalso
      apply hsums_ne
      simp only [List.zip_nil_right, List.length_nil] at hzlen
      exact (List.length_eq_zero.mp hzlen.symm)
    | cons x xs => rfl
  have hdo_ne : doE.isEmpty = false := by
    cases doE with
    | nil => simp [pyLookup] at hpo
    | cons x xs => rfl
  have hdd_ne : ddE.isEmpty = false := by
    cases ddE with
    | nil => simp [pyLookup] at hpd
    | cons x xs => rfl
  refine ⟨bestDayDict (0 + sums.indexOf m) eo ed, ?_, ?_⟩
  · unfold suggestBestTravelDay
    simp only [pyTruthy, hdo_ne, hdd_ne, Bool.not_false, Bool.false_or, Bool.or_false,
      Bool.not_true, if_false, ite_false, ite_true, pyGetD, hpo, hpd,
      Option.getD_some, Bind.bind, Except.bind, hlo_ne, hld_ne]
    rw [show (lo.zip ld).enum = (lo.zip ld).enumFrom 0 from rfl, hfold]
    rfl
  · rw [bestDayDict_dia]
    simp

/-- Counterexample to C7 as stated: with one zipped day whose rain
probabilities are 60 and 60 (sum 120, trivially minimal), the handler does
not identify that day — it returns the informational marker, because the
loop only accepts days whose sum is strictly below the initial 100. -/
theorem c7_counterexample :
    suggestBestTravelDay rainyPrev rainyPrev =
      Except.ok (Val.dict [("info", Val.str "Não foi possível determinar melhor dia")]) := by
  have hsum : ¬ ((60 : ℚ) + 60 < 100) := by norm_num
  simp [suggestBestTravelDay, rainyPrev, pyTruthy, pyGetD, pyLookup, bestDayFold,
    bestDayStep, chuvaDefault, hsum, Bind.bind, Except.bind, List.enum, List.enumFrom]
  rfl

/-- Witness for C7 (amended): two two-day forecasts with sums 80 and 30; the
suggested day is day 2. -/
theorem c7_best_day_minimal_witness :
    ∃ dd, suggestBestTravelDay twoDayPrevA twoDayPrevB = Except.ok dd ∧
      pyGetItem dd "dia" =
        Except.ok (Val.num ((([80, 30] : List ℚ).indexOf 30 : ℚ) + 1)) := by
  have hf : List.Forall₂ (fun p s => daySum p = Except.ok s)
      (((twoDayPrevAList).zip (twoDayPrevBList))) ([80, 30] : List ℚ) := by
    refine List.Forall₂.cons ?_ (List.Forall₂.cons ?_ List.Forall₂.nil) <;>
      · simp [daySum, chuvaDefault, pyLookup, twoDayPrevAList, twoDayPrevBList,
          Bind.bind, Except.bind, pure, Except.pure]
        norm_num
  exact c7_best_day_minimal _ _ twoDayPrevAList twoDayPrevBList [80, 30] 30
    rfl rfl hf (by simp)
    (by
      intro s hs
      simp only [List.mem_cons, List.not_mem_nil, or_false] at hs
      rcases hs with rfl | rfl <;> norm_num)
    (by norm_num)

/-! ### C10 -/

theorem pyMaxByVal_spec (l : List (String × ℚ)) (hne : l ≠ []) :
    ∃ p, pyMaxByVal l = some p ∧ p ∈ l ∧ ∀ q ∈ l, q.2 ≤ p.2 := by
  induction l with
  | nil => exact absurd rfl hne
  | cons hd tl ih =>
    by_cases htl : tl = []
    · subst htl
      refine ⟨hd, by simp [pyMaxByVal], by simp, ?_⟩
      intro q hq
      simp only [List.mem_singleton] at hq
      simp [hq]
    · obtain ⟨p2, hp2, hmem, hmax⟩ := ih htl
      by_cases hlt : hd.2 < p2.2
      · refine ⟨p2, ?_, List.mem_cons_of_mem hd hmem, ?_⟩
        · simp [pyMaxByVal, hp2, hlt]
        · intro q hq
          rcases List.mem_cons.mp hq with rfl | hq2
          · exact le_of_lt hlt
          · exact hmax q hq2
      · refine ⟨hd, ?_, List.mem_cons_self hd tl, ?_⟩
        · simp [pyMaxByVal, hp2, hlt]
        · intro q hq
          rcases List.mem_cons.mp hq with rfl | hq2
          · exact le_refl _
          · exact le_trans (hmax q hq2) (not_lt.mp hlt)

theorem pyMinByVal_spec (l : List (String × ℚ)) (hne : l ≠ []) :
    ∃ p, pyMinByVal l = some p ∧ p ∈ l ∧ ∀ q ∈ l, p.2 ≤ q.2 := by
  induction l with
  | nil => exact absurd rfl hne
  | cons hd tl ih =>
    by_cases htl : tl = []
    · subst htl
      refine ⟨hd, by simp [pyMinByVal], by simp, ?_⟩
      intro q hq
      simp only [List.mem_singleton] at hq
      simp [hq]
    · obtain ⟨p2, hp2, hmem, hmin⟩ := ih htl
      by_cases hlt : p2.2 < hd.2
      · refine ⟨p2, ?_, List.mem_cons_of_mem hd hmem, ?_⟩
        · simp [pyMinByVal, hp2, hlt]
        · intro q hq
          rcases List.mem_cons.mp hq with rfl | hq2
          · exact le_of_lt hlt
          · exact hmin q hq2
      · refine ⟨hd, ?_, List.mem_cons_self hd tl, ?_⟩
        · simp [pyMinByVal, hp2, hlt]
        · intro q hq
          rcases List.mem_cons.mp hq with rfl | hq2
          · exact le_refl _
          · exact le_trans (not_lt.mp hlt) (hmin q hq2)

/-- C10: in the comparison of `_compare_cities` (over at least two collected
city results), only cities with a truthy — nonzero, present — temperature
take part: when none exists the informational marker is returned, and
otherwise `mais_quente`/`mais_fria` carry a maximal and a minimal entry of
exactly that truthy-temperature collection. -/
theorem c10_comparison_nonzero_temps (resultados : List (String × Val))
    (h2 : 2 ≤ resultados.length) :
    (collectTemps resultados = [] →
      compareCities resultados =
        Val.dict [("info", Val.str "Dados insuficientes para comparação")]) ∧
    (collectTemps resultados ≠ [] →
      ∃ hot cold,
        compareCities resultados = Val.dict [("temperatura", Val.dict
          [("mais_quente", Val.dict
             [("cidade", Val.str hot.1), ("temperatura", Val.num hot.2)]),
           ("mais_fria", Val.dict
             [("cidade", Val.str cold.1), ("temperatura", Val.num cold.2)])])] ∧
        hot ∈ collectTemps resultados ∧
        (∀ q ∈ collectTemps resultados, q.2 ≤ hot.2) ∧
        cold ∈ collectTemps resultados ∧
        (∀ q ∈ collectTemps resultados, cold.2 ≤ q.2)) := by
  have hlen : ¬ resultados.length < 2 := not_lt.mpr h2
  constructor
  · intro he
    simp [compareCities, hlen, he, pyMaxByVal, pyMinByVal]
  · intro hne
    obtain ⟨hot, hhot, hmemh, hmax⟩ := pyMaxByVal_spec _ hne
    obtain ⟨cold, hcold, hmemc, hmin⟩ := pyMinByVal_spec _ hne
    exact ⟨hot, cold, by simp [compareCities, hlen, hhot, hcold], hmemh, hmax,
      hmemc, hmin⟩

/-- Witness for C10 on four cities: one with temperature 0, one with no
temperature, and two with nonzero temperatures 30 and 18. -/
theorem c10_comparison_nonzero_temps_witness :
    ∃ hot cold,
      compareCities comparisonResultados = Val.dict [("temperatura", Val.dict
        [("mais_quente", Val.dict
           [("cidade", Val.str hot.1), ("temperatura", Val.num hot.2)]),
         ("mais_fria", Val.dict
           [("cidade", Val.str cold.1), ("temperatura", Val.num cold.2)])])] ∧
      hot ∈ collectTemps comparisonResultados ∧
      (∀ q ∈ collectTemps comparisonResultados, q.2 ≤ hot.2) ∧
      cold ∈ collectTemps comparisonResultados ∧
      (∀ q ∈ collectTemps comparisonResultados, cold.2 ≤ q.2) := by
  refine (c10_comparison_nonzero_temps comparisonResultados (by norm_num [comparisonResultados])).2 ?_
  intro he
  have : ("Beta", (30 : ℚ)) ∈ collectTemps comparisonResultados := by
    norm_num [collectTemps, comparisonResultados, cityTemp, pyLookup]
  rw [he] at this
  exact absurd this (List.not_mem_nil _)

/-! ### C8 -/

theorem cacheReal_cacheData {st : FinState} {now : ℚ} {key : String} {data : Val}
    (h : CacheReal st)
    (hd : pyGetItem data "fonte" = Except.ok (Val.str "ExchangeRate-API") ∨
          pyGetItem data "fonte" = Except.ok (Val.str "CoinGecko")) :
    CacheReal (cacheData st now key data) := by
  intro p hp
  simp only [cacheData] at hp
  rcases mem_pySet st.cache key ⟨data, now⟩ p hp with h1 | h1
  · exact h p h1
  · subst h1
    exact hd

theorem cacheReal_getExchangeRate (st : FinState) (now : ℚ) (base target : String)
    (o : ExchangeOutcome) (r : ExchangeRand) (h : CacheReal st) :
    CacheReal (getExchangeRate st now base target o r).2.1 := by
  by_cases hv : isCacheValid st now ("exchange_" ++ base ++ "_" ++ target) = true
  · simpa [getExchangeRate, hv] using h
  · rw [Bool.not_eq_true] at hv
    by_cases hs : st.hasSession = true
    · cases o with
      | ok rates tlu =>
        cases hr : pyLookup rates (pyUpper target) with
        | none => simpa [getExchangeRate, hv, hs, hr] using h
        | some rate =>
          have : (getExchangeRate st now base target (ExchangeOutcome.ok rates tlu) r).2.1 =
              cacheData st now ("exchange_" ++ base ++ "_" ++ target)
                (realExchangeResult base target rate tlu) := by
            simp [getExchangeRate, hv, hs, hr]
          rw [this]
          exact cacheReal_cacheData h (Or.inl rfl)
      | httpError s => simpa [getExchangeRate, hv, hs] using h
      | raised m => simpa [getExchangeRate, hv, hs] using h
    · rw [Bool.not_eq_true] at hs
      simpa [getExchangeRate, hv, hs] using h

theorem cacheReal_getCryptoPrice (st : FinState) (now : ℚ) (crypto currency : String)
    (o : CryptoOutcome) (r : CryptoRand) (h : CacheReal st) :
    CacheReal (getCryptoPrice st now crypto currency o r).2.1 := by
  by_cases hv : isCacheValid st now ("crypto_" ++ crypto ++ "_" ++ currency) = true
  · simpa [getCryptoPrice, hv] using h
  · rw [Bool.not_eq_true] at hv
    by_cases hs : st.hasSession = true
    · cases o with
      | ok entry =>
        cases entry with
        | none => simpa [getCryptoPrice, hv, hs] using h
        | some e =>
          have : (getCryptoPrice st now crypto currency (CryptoOutcome.ok (some e)) r).2.1 =
              cacheData st now ("crypto_" ++ crypto ++ "_" ++ currency)
                (realCryptoResult crypto currency e now) := by
            simp [getCryptoPrice, hv, hs]
          rw [this]
          exact cacheReal_cacheData h (Or.inr rfl)
      | httpError s => simpa [getCryptoPrice, hv, hs] using h
      | raised m => simpa [getCryptoPrice, hv, hs] using h
    · rw [Bool.not_eq_true] at hs
      simpa [getCryptoPrice, hv, hs] using h

theorem cacheReal_getTopCryptos (st : FinState) (now : ℚ) (limit : ℕ)
    (currency : String) (o : TopCryptosOutcome) (r : TopCryptosRand)
    (h : CacheReal st) :
    CacheReal (getTopCryptos st now limit currency o r).2.1 := by
  by_cases hv : isCacheValid st now ("top_cryptos_" ++ toString limit ++ "_" ++ currency) = true
  · simpa [getTopCryptos, hv] using h
  · rw [Bool.not_eq_true] at hv
    by_cases hs : st.hasSession = true
    · cases o with
      | ok coins =>
        have : (getTopCryptos st now limit currency (TopCryptosOutcome.ok coins) r).2.1 =
            cacheData st now ("top_cryptos_" ++ toString limit ++ "_" ++ currency)
              (realTopCryptosResult limit currency coins now) := by
          simp [getTopCryptos, hv, hs]
        rw [this]
        exact cacheReal_cacheData h (Or.inr rfl)
      | httpError s => simpa [getTopCryptos, hv, hs] using h
      | raised m => simpa [getTopCryptos, hv, hs] using h
    · rw [Bool.not_eq_true] at hs
      simpa [getTopCryptos, hv, hs] using h

theorem cacheReal_getMultipleExchangeRates (st : FinState) (now : ℚ) (base : String)
    (targets : List String) (o : String → ExchangeOutcome)
    (r : String → ExchangeRand) (h : CacheReal st) :
    CacheReal (getMultipleExchangeRates st now base targets o r).2 := by
  suffices haux : ∀ (acc : List (String × Val)) (st0 : FinState), CacheReal st0 →
      CacheReal (targets.foldl
        (fun (a : List (String × Val) × FinState) target =>
          let call := getExchangeRate a.2 now base target (o target) (r target)
          (pySet a.1 target call.1, call.2.1))
        (acc, st0)).2 by
    exact haux [] st h
  induction targets with
  | nil => intro acc st0 h0; exact h0
  | cons t ts ih =>
    intro acc st0 h0
    exact ih _ _ (cacheReal_getExchangeRate st0 now base t (o t) (r t) h0)

theorem cacheReal_getMarketSummary (st : FinState) (now : ℚ) (iso : String)
    (env : MarketSummaryEnv) (h : CacheReal st) :
    CacheReal (getMarketSummary st now iso env).2 := by
  have h4 : CacheReal (getCryptoPrice
      (getCryptoPrice
        (getExchangeRate
          (getExchangeRate st now "USD" "BRL" env.usdOutcome env.usdRand).2.1
          now "EUR" "BRL" env.eurOutcome env.eurRand).2.1
        now "bitcoin" "brl" env.btcOutcome env.btcRand).2.1
      now "ethereum" "brl" env.ethOutcome env.ethRand).2.1 :=
    cacheReal_getCryptoPrice _ now "ethereum" "brl" _ _
      (cacheReal_getCryptoPrice _ now "bitcoin" "brl" _ _
        (cacheReal_getExchangeRate _ now "EUR" "BRL" _ _
          (cacheReal_getExchangeRate st now "USD" "BRL" _ _ h)))
  unfold getMarketSummary
  dsimp only
  split <;> exact h4

/-- C8: the finance-cache invariant — every cached entry's data carries a
real provider `fonte` (`ExchangeRate-API` or `CoinGecko`), never the
simulated marker — is preserved by `process_message` for every message,
because only the success branches of the three provider operations write to
the cache. -/
theorem c8_cache_only_real_results (st : FinState) (env : FinEnv)
    (msg : MCPMessage) (h : CacheReal st) :
    CacheReal (financeProcess st env msg).2 := by
  unfold financeProcess financeProcessCustom
  by_cases h1 : pyLower msg.messageType = "cotacao_moeda"
  · simpa [h1] using cacheReal_getExchangeRate st env.now _ _ _ _ h
  · by_cases h2 : pyLower msg.messageType = "cotacao_crypto"
    · simpa [h1, h2] using cacheReal_getCryptoPrice st env.now _ _ _ _ h
    · by_cases h3 : pyLower msg.messageType = "multiplas_moedas"
      · simpa [h1, h2, h3] using
          cacheReal_getMultipleExchangeRates st env.now _ _ _ _ h
      · by_cases h4 : pyLower msg.messageType = "top_cryptos"
        · simpa [h1, h2, h3, h4] using cacheReal_getTopCryptos st env.now _ _ _ _ h
        · by_cases h5 : pyLower msg.messageType = "resumo_mercado"
          · simpa [h1, h2, h3, h4, h5] using
              cacheReal_getMarketSummary st env.now env.nowIso (msEnvOf env) h
          · by_cases h6 : pyLower msg.messageType = "ping"
            · simpa [h1, h2, h3, h4, h5, h6] using h
            · simpa [h1, h2, h3, h4, h5, h6] using h

/-- Witness for C8: a fresh (empty-cache) agent processing a market summary
whose providers all fail keeps the invariant. -/
theorem c8_cache_only_real_results_witness :
    CacheReal (financeProcess freshFinState downFinEnv ⟨"resumo_mercado", []⟩).2 :=
  c8_cache_only_real_results freshFinState downFinEnv ⟨"resumo_mercado", []⟩
    (by intro p hp; exact absurd hp (List.not_mem_nil p))

end MCPA
